import Mathlib

/-!
Shallow embedding of `apps/lights.py` (AppDaemon `LightController`).

Modelling conventions:
* Python floats (timestamps, lux values, thresholds, brightness / color
  values) are modelled as exact integers (`Int`); every claim under
  scrutiny only involves integer-valued quantities and integral
  tolerance bands.
* Python's one-argument `round` (round-half-to-even) applied to an exact
  fraction `a / b` is `roundHEDiv a b` below.
* Python dictionaries keyed by entity id are association lists with
  last-write-wins update (`dictSet`).
* Attribute / sensor values arriving from Home Assistant are `AVal`:
  `AVal.vNone` is Python `None`, `AVal.num q` a numeric value, and
  `AVal.bad s` a string on which `float()` / `int()` raise.
* `time.time()` and `datetime.now()` are inputs: every event carries an
  `Env` snapshot of the external world (current timestamp, minutes of
  day, weekday string, entity states, attributes).
* AppDaemon timers: `run_in` returns a fresh handle and records a
  pending timer; `cancel_timer` removes it; a fired or cancelled timer
  is no longer pending.  The model state carries the multiset of
  pending timers explicitly so that timer invariants can be stated.
* `self.log` calls are recorded as short tags in `St.log`; service
  calls (`light/turn_on`, ...) are recorded as `Cmd` values in `St.cmds`.
-/

namespace Lights

/-- Python's round-half-to-even of the exact fraction `a / b` (with `b > 0`),
as computed by `int(round(a/b))` on exact values. -/
def roundHEDiv (a b : Int) : Int :=
  let f : Int := Int.fdiv a b
  let r2 : Int := 2 * (a - f * b)
  if r2 < b then f
  else if b < r2 then f + 1
  else if f % 2 = 0 then f else f + 1

/-- A raw attribute/sensor value: Python `None`, a numeric value, or a
non-numeric string on which `float()` / `int()` raise. -/
inductive AVal where
  | vNone : AVal
  | num : Int → AVal
  | bad : String → AVal
deriving DecidableEq, Repr

/-- Python truthiness of an `AVal` (`None` and `0` and `""` are falsy). -/
def avTruthy : AVal → Bool
  | AVal.vNone => false
  | AVal.num q => q != 0
  | AVal.bad s => s != ""

/-- Python `x or 0` as used in `float(old or 0)`. -/
def pyOr0 (v : AVal) : AVal :=
  if avTruthy v then v else AVal.num 0

/-- Python `float(v)`: numeric succeeds, `None` and non-numeric strings raise. -/
def toFloat : AVal → Option Int
  | AVal.num q => some q
  | _ => none

/-- Python `int(v)` on a value already known numeric in the model
(`int` of an integer-valued number is itself). -/
def toIntTrunc : AVal → Option Int
  | AVal.num q => some q
  | _ => none

/-- Association-list lookup, modelling Python `d.get(k)`. -/
def dictGet {α : Type} : List (String × α) → String → Option α
  | [], _ => none
  | p :: d, k => if p.1 = k then some p.2 else dictGet d k

/-- Association-list update, modelling Python `d[k] = v`. -/
def dictSet {α : Type} (d : List (String × α)) (k : String) (v : α) :
    List (String × α) :=
  (k, v) :: d.filter (fun p => ¬ p.1 = k)

/-- Association-list removal, modelling Python `d.pop(k, None)`. -/
def dictPop {α : Type} (d : List (String × α)) (k : String) :
    List (String × α) :=
  d.filter (fun p => ¬ p.1 = k)

/-- List-based string prefix test (Python `s.startswith(p)`). -/
def strStarts (pre s : String) : Bool :=
  decide (s.data.take pre.data.length = pre.data)

/-- Python substring test `needle in hay`. -/
def strHas (needle hay : String) : Bool :=
  (List.range (hay.data.length + 1)).any
    (fun i => decide ((hay.data.drop i).take needle.data.length = needle.data))

/-- ASCII lower-casing of one character (Python `str.lower` on the
identifiers appearing here). -/
def charLower (c : Char) : Char :=
  if 'A' ≤ c ∧ c ≤ 'Z' then Char.ofNat (c.toNat + 32) else c

/-- Python `s.lower()` on a model string. -/
def strLower (s : String) : List Char := s.data.map charLower

/-- A time-of-day string as fed to `_parse_hhmm`: either a string whose
first two colon-separated fields parse as the integers `h` and `m`
(`_parse_hhmm` performs no range check) with `raw` the original text, or
a malformed string on which parsing raises. -/
inductive TimeStr where
  | hhmm : Int → Int → String → TimeStr
  | malformed : String → TimeStr
deriving DecidableEq, Repr

/-- The original text of the time string, as interpolated into the
f-string of `_blocked_now`. -/
def TimeStr.render : TimeStr → String
  | TimeStr.hhmm _ _ raw => raw
  | TimeStr.malformed s => s

/-- Python truthiness of the raw time string (`if self._quiet_start`). -/
def TimeStr.truthy : TimeStr → Bool
  | TimeStr.hhmm _ _ raw => raw != ""
  | TimeStr.malformed s => s != ""

/-- Rendering of an optional raw value (`None` prints as `"None"`). -/
def renderOptTime : Option TimeStr → String
  | none => "None"
  | some t => t.render

/-- The raw `actions` entry of a block window (`_norm_actions` accepts a
bool or a string). -/
inductive ActVal where
  | b : Bool → ActVal
  | s : String → ActVal
deriving DecidableEq, Repr

/-- `_norm_actions`: normalize an actions value to `"on"`, `"off"` or
`"on_off"`; anything else (including absent) becomes `None`. -/
def normActions : Option ActVal → Option String
  | some (ActVal.b v) => if v then some "on_off" else none
  | some (ActVal.s v) =>
      if v = "on" ∨ v = "off" ∨ v = "on_off" then some v else none
  | none => none

/-- One configured block window (`block_windows` entry).  `wstart` / `wend`
are the raw `start` / `end` values (`none` when the key is absent). -/
structure Window where
  wstart : Option TimeStr
  wend : Option TimeStr
  days : Option (List String)
  actions : Option ActVal
deriving DecidableEq, Repr

/-- `_parse_hhmm`: minutes since midnight, `none` when parsing raises. -/
def parseHhmm : Option TimeStr → Option Int
  | some (TimeStr.hhmm h m _) => some (h * 60 + m)
  | _ => none

/-- `_within_window`. -/
def withinWindow (startMin endMin : Option Int) (nowMin : Int) : Bool :=
  match startMin, endMin with
  | none, _ => false
  | _, none => false
  | some s, some e =>
      if s = e then false
      else if s < e then decide (s ≤ nowMin ∧ nowMin < e)
      else decide (nowMin ≥ s ∨ nowMin < e)

/-- Static configuration of one `LightController` instance
(the fields of `self` assigned from `self.args` in `initialize`). -/
structure Config where
  appName : String
  lights : List String
  motionEntities : List String
  luxSensor : Option String
  luxThreshold : Option Int
  onlyWhenDark : Bool
  delayOff : Int
  manualOffReautoDelay : Int
  motionReautoSeconds : Int
  bootGrace : Int
  echoWindow : Int
  echoMaxWindow : Int
  mediaPlayers : List String
  mediaDimBrightnessPct : Option Int
  autoBrightnessPct : Option Int
  alSwitch : Option String
  alUseTargets : Bool
  alTakeOverOnManual : Bool
  alManualResetSeconds : Option Int
  alAdaptBrightness : Option Bool
  alAdaptColor : Option Bool
  quietStart : Option TimeStr
  quietEnd : Option TimeStr
  blockWindows : List Window
  blockActionsDefault : String
deriving DecidableEq, Repr

/-- Attributes exposed by the Adaptive Lighting switch
(`get_state(self._al_switch, attribute="attributes")`).
`adaptBrightness` / `adaptColor` are the truthiness of the attribute,
`none` when the key is absent (so that `attrs.get(k, True)` defaults). -/
structure AlAttrs where
  brightnessPct : Option Int
  brightness : Option AVal
  colorTempKelvin : Option Int
  colorTemp : Option AVal
  adaptBrightness : Option Bool
  adaptColor : Option Bool
deriving DecidableEq, Repr

/-- The empty attributes dictionary. -/
def AlAttrs.empty : AlAttrs :=
  ⟨none, none, none, none, none, none⟩

/-- External-world snapshot consulted by a handler: current wall-clock
timestamp, minutes of day and weekday (already lower-cased, as produced
by `_now_minutes_and_day`), per-entity `get_state` values, per-light
`brightness` attribute, the lux reading, and the Adaptive Lighting
switch attributes (`none` when `get_state` returns `None`). -/
structure Env where
  now : Int
  nowMin : Int
  day : String
  entState : String → Option String
  briAttr : String → Option AVal
  lux : AVal
  alAttrs : Option AlAttrs

/-- The reason string a matching window contributes to `_blocked_now`
(`f"{actions} {w.get('start')}-{w.get('end')}"`); `dflt` is
`self._block_actions_default`. -/
def windowReason (dflt : String) (w : Window) : String :=
  (normActions w.actions).getD dflt ++ " " ++
    renderOptTime w.wstart ++ "-" ++ renderOptTime w.wend

/-- Whether one entry of `block_windows` matches the current time and
weekday (the loop body of `_blocked_now`; a window whose start or end
fails to parse never matches, i.e. is skipped). -/
def windowMatches (w : Window) (env : Env) : Bool :=
  if ¬ withinWindow (parseHhmm w.wstart) (parseHhmm w.wend) env.nowMin then
    false
  else
    match w.days with
    | some (d :: ds) =>
        ((d :: ds).map (fun x => (strLower x).take 3)).contains
          (env.day.data.take 3)
    | _ => true

/-- The window loop of `_blocked_now`: first matching window wins. -/
def blockedNowWindows (dflt : String) (env : Env) :
    List Window → Option String
  | [] => none
  | w :: ws =>
      if windowMatches w env then some (windowReason dflt w)
      else blockedNowWindows dflt env ws

/-- `_blocked_now`: first matching block window wins; the legacy
quiet pair is the fallback.  Returns `(blocked, reason)`. -/
def blockedNow (cfg : Config) (env : Env) : Bool × Option String :=
  match blockedNowWindows cfg.blockActionsDefault env cfg.blockWindows with
  | some why => (true, some why)
  | none =>
      let s := match cfg.quietStart with
        | some t => if t.truthy then parseHhmm (some t) else none
        | none => none
      let e := match cfg.quietEnd with
        | some t => if t.truthy then parseHhmm (some t) else none
        | none => none
      if withinWindow s e env.nowMin then
        (true, some (cfg.blockActionsDefault ++ " " ++
          renderOptTime cfg.quietStart ++ "-" ++ renderOptTime cfg.quietEnd))
      else (false, none)

/-- `_automation_allowed`. -/
def automationAllowed (cfg : Config) (env : Env) (action : String) : Bool :=
  let (blocked, why) := blockedNow cfg env
  if ¬ blocked then true
  else
    let w := why.getD ""
    if strHas "on_off" w then false
    else if action = "on" ∧ strHas " on" w then false
    else if action = "off" ∧ strHas " off" w then false
    else true

/-- `_is_dark_enough`. -/
def isDarkEnough (cfg : Config) (env : Env) : Bool :=
  if ¬ cfg.onlyWhenDark ∨ cfg.luxSensor = none then true
  else
    let lux : Option Int :=
      match env.lux with
      | AVal.vNone => none
      | v => toFloat v
    match lux with
    | none => true
    | some l =>
        match cfg.luxThreshold with
        | none => true
        | some low => decide (l ≤ low)

/-- `(v or "").lower() == "on"` on a `get_state` result. -/
def stateOnStr (v : Option String) : Bool :=
  decide (strLower (v.getD "") = "on".data)

/-- `(v or "").lower() in ("on", "home", "occupied", "true", "1")`. -/
def isOccupiedVal (v : Option String) : Bool :=
  let l := strLower (v.getD "")
  decide (l = "on".data ∨ l = "home".data ∨ l = "occupied".data ∨
    l = "true".data ∨ l = "1".data)

/-- `_any_light_on`. -/
def anyLightOn (cfg : Config) (env : Env) : Bool :=
  cfg.lights.any (fun l => stateOnStr (env.entState l))

/-- `_any_motion_on`. -/
def anyMotionOn (cfg : Config) (env : Env) : Bool :=
  cfg.motionEntities.any (fun e => isOccupiedVal (env.entState e))

/-- A service call issued by the controller. -/
inductive Cmd where
  | lightTurnOn : String → Option Int → Option Int → Cmd
  | lightTurnOff : String → Cmd
  | switchTurnOn : String → Cmd
  | switchTurnOff : String → Cmd
  | alManualCtl : List String → Cmd
  | alResetSvc : List String → Cmd
deriving DecidableEq, Repr

/-- The purpose of a pending AppDaemon timer in this app. -/
inductive TPurpose where
  | autoOff : TPurpose
  | motionReauto : TPurpose
  | manualOffReauto : TPurpose
  | alHold : String → TPurpose
deriving DecidableEq, Repr

/-- A pending timer: its purpose and the handle `run_in` returned. -/
structure PendingTimer where
  purpose : TPurpose
  tid : Nat
deriving DecidableEq, Repr

/-- One `_expected_echo` entry: `{"until": ts, "expected": state, "logged": b}`. -/
structure EchoExp where
  expUntil : Int
  expected : String
  logged : Bool
deriving DecidableEq, Repr

/-- The mutable state of one `LightController` instance, together with
the model bookkeeping (pending timers, issued commands, log tags). -/
structure St where
  mode : String
  presence : Bool
  mediaPlaying : Bool
  offTimer : Option Nat
  motionReautoTimer : Option Nat
  alManualTimers : List (String × Nat)
  expectedEcho : List (String × EchoExp)
  lastCmd : List (String × (String × Int))
  beforeMediaBri : List (String × Option Int)
  startedTs : Int
  pending : List PendingTimer
  nextId : Nat
  cmds : List Cmd
  log : List String
deriving DecidableEq, Repr

/-- State right after `initialize` (`_started_ts = now`). -/
def initSt (startedTs : Int) : St :=
  { mode := "auto", presence := false, mediaPlaying := false,
    offTimer := none, motionReautoTimer := none, alManualTimers := [],
    expectedEcho := [], lastCmd := [], beforeMediaBri := [],
    startedTs := startedTs, pending := [], nextId := 0, cmds := [],
    log := [] }

/-- `_cancel_timer_safe`: cancelling `None` or an already fired /
cancelled handle is a no-op. -/
def cancelTimerSafe (h : Option Nat) (s : St) : St :=
  match h with
  | none => s
  | some tid => { s with pending := s.pending.filter (fun t => ¬ t.tid = tid) }

/-- `self.run_in(cb, delay)`: returns a fresh handle and records the
pending timer. -/
def runIn (purpose : TPurpose) (s : St) : Nat × St :=
  (s.nextId,
    { s with
      pending := ⟨purpose, s.nextId⟩ :: s.pending,
      nextId := s.nextId + 1 })

/-- `_mark_expected_echo`. -/
def markExpectedEcho (cfg : Config) (env : Env) (state : String) (s : St) :
    St :=
  let tUntil := min (env.now + cfg.echoWindow) (env.now + cfg.echoMaxWindow)
  { s with
    expectedEcho := cfg.lights.foldl
      (fun d l => dictSet d l ⟨tUntil, state, false⟩) s.expectedEcho,
    lastCmd := cfg.lights.foldl
      (fun d l => dictSet d l (state, env.now)) s.lastCmd }

/-- `_ignore_if_expected_echo`: returns the boolean result and the
updated state (eviction on expiry, `logged` acknowledgment, log entry). -/
def ignoreIfExpectedEcho (env : Env) (s : St) (entity : String)
    (old new : Option String) : Bool × St :=
  match dictGet s.expectedEcho entity with
  | none => (false, s)
  | some exp =>
      if exp.expUntil < env.now then
        (false, { s with expectedEcho := dictPop s.expectedEcho entity })
      else
        let oldOn := stateOnStr old
        let newOn := stateOnStr new
        if exp.expected = "on" ∧ ¬ oldOn ∧ newOn then
          if ¬ exp.logged then
            (true, { s with
              expectedEcho :=
                dictSet s.expectedEcho entity { exp with logged := true },
              log := s.log ++ ["echo_ignored"] })
          else (true, s)
        else if exp.expected = "off" ∧ oldOn ∧ ¬ newOn then
          if ¬ exp.logged then
            (true, { s with
              expectedEcho :=
                dictSet s.expectedEcho entity { exp with logged := true },
              log := s.log ++ ["echo_ignored"] })
          else (true, s)
        else (false, s)

/-- `_recent_app_change` with the default recency window
`max(echo_window, 3.0)`. -/
def recentAppChange (cfg : Config) (env : Env) (s : St) (entity : String) :
    Bool :=
  match dictGet s.lastCmd entity with
  | none => false
  | some (_, ts) => decide (env.now - ts ≤ max cfg.echoWindow 3)

/-- `_mireds_to_kelvin`. -/
def miredsToKelvin : AVal → Option Int
  | AVal.num m => if m ≤ 0 then none else some (roundHEDiv 1000000 m)
  | _ => none

/-- `_al_switch_attrs`. -/
def alSwitchAttrs (cfg : Config) (env : Env) : AlAttrs :=
  if cfg.alSwitch = none then AlAttrs.empty
  else (env.alAttrs).getD AlAttrs.empty

/-- `_al_current_targets`:
`(brightness_pct, color_temp_kelvin, adapt_brightness, adapt_color)`. -/
def alCurrentTargets (cfg : Config) (env : Env) :
    Option Int × Option Int × Bool × Bool :=
  let attrs := alSwitchAttrs cfg env
  let bri : Option Int :=
    match attrs.brightnessPct with
    | some v => some v
    | none =>
        match attrs.brightness with
        | some (AVal.num q) => some q
        | _ => none
  let ct : Option Int :=
    match attrs.colorTempKelvin with
    | some v => some v
    | none =>
        match attrs.colorTemp with
        | some m => miredsToKelvin m
        | none => none
  (bri, ct, cfg.alAdaptBrightness.getD (attrs.adaptBrightness.getD true),
    cfg.alAdaptColor.getD (attrs.adaptColor.getD true))

/-- `_al_set_manual_control` (the external call is recorded as a `Cmd`). -/
def alSetManualControl (cfg : Config) (lightsArg : Option (List String))
    (s : St) : St :=
  if cfg.alSwitch = none ∨ ¬ cfg.alTakeOverOnManual then s
  else
    let ls := match lightsArg with
      | some (l :: tl) => l :: tl
      | _ => cfg.lights
    { s with
      cmds := s.cmds ++ [Cmd.alManualCtl ls],
      log := s.log ++ ["al_manual_control"] }

/-- `_al_reset`. -/
def alReset (cfg : Config) (lightsArg : Option (List String)) (s : St) : St :=
  if cfg.alSwitch = none then s
  else
    let ls := match lightsArg with
      | some (l :: tl) => l :: tl
      | _ => cfg.lights
    { s with
      cmds := s.cmds ++ [Cmd.alResetSvc ls],
      log := s.log ++ ["al_reset"] }

/-- `_al_schedule_reset_for`: pop and cancel the prior per-light hold
timer, then (unless the reset delay is falsy) schedule a fresh one. -/
def alScheduleResetFor (cfg : Config) (entity : String) (s : St) : St :=
  let h := dictGet s.alManualTimers entity
  let s1 := { s with alManualTimers := dictPop s.alManualTimers entity }
  let s2 := cancelTimerSafe h s1
  if cfg.alManualResetSeconds = none ∨ cfg.alManualResetSeconds = some 0 then
    s2
  else
    let r := runIn (TPurpose.alHold entity) s2
    { r.2 with alManualTimers := dictSet r.2.alManualTimers entity r.1 }

/-- `_al_reset_timer_cb`. -/
def alResetTimerCb (cfg : Config) (entity : String) (s : St) : St :=
  let s1 := { s with
    alManualTimers := dictPop s.alManualTimers entity,
    log := s.log ++ ["al_hold_elapsed"] }
  alReset cfg (some [entity]) s1

/-- `_al_is_change_like_al`. -/
def alIsChangeLikeAl (cfg : Config) (env : Env) (entity attr : String)
    (old new : AVal) : Bool :=
  if cfg.alSwitch = none ∨
      ¬ (attr = "brightness" ∨ attr = "brightness_pct" ∨
        attr = "color_temp" ∨ attr = "color_temp_kelvin") then
    false
  else
    match alCurrentTargets cfg env with
    | (briT, ctT, _, _) =>
      if attr = "brightness" ∨ attr = "brightness_pct" then
        match briT with
        | none => false
        | some bt =>
            if attr = "brightness" then
              match new with
              | AVal.num q => decide (|bt - roundHEDiv (q * 100) 255| ≤ 3)
              | _ => false
            else
              match new with
              | AVal.vNone => false
              | AVal.num q => decide (|bt - q| ≤ 3)
              | AVal.bad _ => false
      else
        match ctT with
        | none => false
        | some kt =>
            if attr = "color_temp" then
              match miredsToKelvin new with
              | some vk => decide (|kt - vk| ≤ 150)
              | none => false
            else
              match new with
              | AVal.vNone => false
              | AVal.num q => decide (|kt - q| ≤ 150)
              | AVal.bad _ => false

/-- The service calls `_turn_on` issues: Adaptive Lighting targets when
configured, then the brightness choice (media dim overrides the
configured auto brightness, which overrides the adaptation target),
per light. -/
def turnOnCmds (cfg : Config) (env : Env) (mediaPlaying : Bool) :
    List Cmd :=
  match (if ¬ cfg.alSwitch = none ∧ cfg.alUseTargets then
      alCurrentTargets cfg env
    else (none, none, true, true)) with
  | (briTarget, ctKelvin, adaptB, adaptC) =>
    let bp : Option Int :=
      if mediaPlaying ∧ ¬ cfg.mediaDimBrightnessPct = none then
        cfg.mediaDimBrightnessPct
      else if ¬ cfg.autoBrightnessPct = none then cfg.autoBrightnessPct
      else if ¬ briTarget = none ∧ adaptB then briTarget
      else none
    cfg.lights.map (fun l =>
      if strStarts "switch." l then Cmd.switchTurnOn l
      else Cmd.lightTurnOn l bp
        (if ¬ ctKelvin = none ∧ adaptC then ctKelvin else none))

/-- The service calls `_turn_off` issues, per light. -/
def turnOffCmds (cfg : Config) : List Cmd :=
  cfg.lights.map (fun l =>
    if strStarts "switch." l then Cmd.switchTurnOff l
    else Cmd.lightTurnOff l)

/-- `_turn_on`. -/
def turnOn (cfg : Config) (env : Env) (reason : String) (s : St) : St :=
  let s1 := markExpectedEcho cfg env "on" s
  { s1 with
    cmds := s1.cmds ++ turnOnCmds cfg env s.mediaPlaying,
    log := s1.log ++ ["turn_on " ++ reason] }

/-- `_turn_off`. -/
def turnOff (cfg : Config) (env : Env) (reason : String) (s : St) : St :=
  let s1 := markExpectedEcho cfg env "off" s
  { s1 with
    cmds := s1.cmds ++ turnOffCmds cfg,
    log := s1.log ++ ["turn_off " ++ reason] }

/-- `_schedule_off`: cancel the prior auto-off timer, then schedule. -/
def scheduleOff (cfg : Config) (s : St) : St :=
  let s1 := cancelTimerSafe s.offTimer s
  let r := runIn TPurpose.autoOff s1
  { r.2 with
    offTimer := some r.1,
    log := r.2.log ++ ["scheduled_auto_off"] }

/-- `_auto_off_elapsed` (auto-off timer callback). -/
def autoOffElapsed (cfg : Config) (env : Env) (s : St) : St :=
  let s1 :=
    if s.mode = "auto" ∧ ¬ s.presence then
      if automationAllowed cfg env "off" then
        turnOff cfg env "auto_off" { s with log := s.log ++ ["auto_off"] }
      else { s with log := s.log ++ ["auto_off_blocked"] }
    else s
  { s1 with offTimer := none }

/-- The two recursions of `_apply_media_dimming` over the light group:
returns the updated capture map, the commands issued, and whether any
light was dimmed. -/
def mediaDimLoop (env : Env) (target : Int) :
    List String → List (String × Option Int) →
      List (String × Option Int) × List Cmd × Bool
  | [], m => (m, [], false)
  | l :: ls, m =>
      if ¬ strStarts "light." l then mediaDimLoop env target ls m
      else
        let m' :=
          if (dictGet m l).isNone then
            let pct : Option Int :=
              match env.briAttr l with
              | some (AVal.num q) =>
                  some (max 1 (min 100 (roundHEDiv (q * 100) 255)))
              | _ => none
            dictSet m l pct
          else m
        let r := mediaDimLoop env target ls m'
        (r.1, Cmd.lightTurnOn l (some target) none :: r.2.1, true)

/-- `_apply_media_dimming`. -/
def applyMediaDimming (cfg : Config) (env : Env) (s : St) : St :=
  match cfg.mediaDimBrightnessPct with
  | none => s
  | some target =>
      let r := mediaDimLoop env target cfg.lights s.beforeMediaBri
      { s with
        beforeMediaBri := r.1,
        cmds := s.cmds ++ r.2.1,
        log := if r.2.2 then s.log ++ ["media_dimming"] else s.log }

/-- `_restore_from_media`. -/
def restoreFromMedia (cfg : Config) (s : St) : St :=
  if s.beforeMediaBri = [] then
    match cfg.autoBrightnessPct with
    | none => s
    | some bp =>
        { s with
          cmds := s.cmds ++
            (cfg.lights.filter (fun l => strStarts "light." l)).map
              (fun l => Cmd.lightTurnOn l (some bp) none),
          log := s.log ++ ["media_auto_brightness"] }
  else
    { s with
      cmds := s.cmds ++ s.beforeMediaBri.filterMap (fun p =>
        if ¬ strStarts "light." p.1 then none
        else match p.2 with
          | none => none
          | some pct => some (Cmd.lightTurnOn p.1 (some pct) none)),
      beforeMediaBri := [],
      log := s.log ++ ["media_restore"] }

/-- `_changed_meaningfully`. -/
def changedMeaningfully (attr : String) (old new : AVal) : Bool :=
  if attr = "brightness" ∨ attr = "brightness_pct" then
    match toFloat (pyOr0 old), toFloat (pyOr0 new) with
    | some o, some n => decide (|n - o| ≥ 5)
    | _, _ => true
  else if attr = "color_temp" ∨ attr = "color_temp_kelvin" then
    match toFloat (pyOr0 old), toFloat (pyOr0 new) with
    | some o, some n =>
        if attr = "color_temp_kelvin" then decide (|n - o| ≥ 100)
        else decide (|n - o| ≥ 5)
    | _, _ => true
  else true

/-- `_reautomate_from_motion` (quick re-automate timer callback). -/
def reautomateFromMotion (cfg : Config) (env : Env) (s : St) : St :=
  let s1 := { s with motionReautoTimer := none, mode := "auto" }
  if s1.presence ∧ isDarkEnough cfg env then
    if automationAllowed cfg env "on" then
      turnOn cfg env "motion_reauto"
        { s1 with log := s1.log ++ ["reauto_motion_on"] }
    else { s1 with log := s1.log ++ ["reauto_motion_on_blocked"] }
  else
    turnOff cfg env "motion_reauto"
      { s1 with log := s1.log ++ ["reauto_motion_off"] }

/-- `_reautomate_from_manual_off` (manual-off delay timer callback). -/
def reautomateFromManualOff (cfg : Config) (env : Env) (s : St) : St :=
  let s1 := { s with mode := "auto" }
  if s1.presence ∧ isDarkEnough cfg env then
    if automationAllowed cfg env "on" then
      turnOn cfg env "manual_off_timeout"
        { s1 with log := s1.log ++ ["reauto_manualoff_on"] }
    else { s1 with log := s1.log ++ ["reauto_manualoff_on_blocked"] }
  else
    turnOff cfg env "manual_off_timeout"
      { s1 with log := s1.log ++ ["reauto_manualoff_off"] }

/-- Payload of a `call_service` event for `button/press`. -/
structure BtnData where
  domain : Option String
  service : Option String
  entityId : Option (List String)
deriving DecidableEq, Repr

/-- `_on_button_press`. -/
def onButtonPress (cfg : Config) (env : Env) (data : BtnData) (s : St) : St :=
  if ¬ data.domain = some "button" ∨ ¬ data.service = some "press" then s
  else
    match data.entityId with
    | none => s
    | some ents =>
        if ents = [] then s
        else if ¬ ents.contains ("button.reautomate_" ++ cfg.appName) then s
        else
          let s1 := { s with
            mode := "auto",
            log := s.log ++ ["reauto_button"] }
          if s1.presence ∧ isDarkEnough cfg env then
            turnOn cfg env "event"
              { s1 with log := s1.log ++ ["button_on"] }
          else
            turnOff cfg env "event"
              { s1 with log := s1.log ++ ["button_off"] }

/-- `_on_motion`. -/
def onMotion (cfg : Config) (env : Env) (entity : String)
    (old new : Option String) (s : St) : St :=
  let isOn := isOccupiedVal new
  let s0 := { s with presence := isOn }
  let s1 :=
    if s0.mode = "manual_on" ∧ isOn then
      let sa := cancelTimerSafe s0.motionReautoTimer s0
      let r := runIn TPurpose.motionReauto sa
      { r.2 with
        motionReautoTimer := some r.1,
        log := r.2.log ++ ["motion_quick_reauto_scheduled"] }
    else s0
  if ¬ s1.mode = "auto" then s1
  else if isOn then
    let s2 := cancelTimerSafe s1.offTimer s1
    if ¬ automationAllowed cfg env "on" then
      { s2 with log := s2.log ++ ["motion_on_blocked"] }
    else if isDarkEnough cfg env then
      if ¬ anyLightOn cfg env then turnOn cfg env "motion" s2
      else if s2.mediaPlaying ∧ ¬ cfg.mediaDimBrightnessPct = none then
        applyMediaDimming cfg env s2
      else s2
    else { s2 with log := s2.log ++ ["motion_not_dark"] }
  else
    if ¬ anyMotionOn cfg env then
      if automationAllowed cfg env "off" then scheduleOff cfg s1
      else { s1 with log := s1.log ++ ["motion_off_blocked"] }
    else s1

/-- `_on_light_power`. -/
def onLightPower (cfg : Config) (env : Env) (entity : String)
    (old new : Option String) (s : St) : St :=
  if env.now - s.startedTs < cfg.bootGrace then s
  else
    match ignoreIfExpectedEcho env s entity old new with
    | (true, s1) => s1
    | (false, s1) =>
        let newOn := stateOnStr new
        let oldOn := stateOnStr old
        if newOn ∧ ¬ oldOn then
          if ¬ s1.mode = "manual_on" then
            let s2 := cancelTimerSafe s1.offTimer
              { s1 with mode := "manual_on", log := s1.log ++ ["manual_on"] }
            alScheduleResetFor cfg entity
              (alSetManualControl cfg (some [entity]) s2)
          else s1
        else if ¬ newOn ∧ oldOn then
          if ¬ s1.mode = "manual_off" then
            let s2 := cancelTimerSafe s1.offTimer
              { s1 with
                mode := "manual_off",
                log := s1.log ++ ["manual_off"] }
            (runIn TPurpose.manualOffReauto s2).2
          else s1
        else s1

/-- `_on_light_attr`. -/
def onLightAttr (cfg : Config) (env : Env) (entity attr : String)
    (old new : AVal) (s : St) : St :=
  if env.now - s.startedTs < cfg.bootGrace then s
  else if recentAppChange cfg env s entity then s
  else if alIsChangeLikeAl cfg env entity attr old new then s
  else if ¬ changedMeaningfully attr old new then s
  else if ¬ stateOnStr (env.entState entity) then s
  else
    let s1 :=
      if ¬ s.mode = "manual_on" then
        cancelTimerSafe s.offTimer
          { s with mode := "manual_on", log := s.log ++ ["manual_tweak"] }
      else s
    alScheduleResetFor cfg entity
      (alSetManualControl cfg (some [entity]) s1)

/-- `_on_lux_changed`. -/
def onLuxChanged (cfg : Config) (env : Env) (entity : String)
    (old new : AVal) (s : St) : St :=
  let s0 := { s with log := s.log ++ ["lux_changed"] }
  if s0.mode = "auto" ∧ s0.presence ∧ isDarkEnough cfg env then
    if ¬ anyLightOn cfg env then
      if automationAllowed cfg env "on" then
        turnOn cfg env "lux_dark_now" s0
      else { s0 with log := s0.log ++ ["dark_now_blocked"] }
    else if s0.mediaPlaying ∧ ¬ cfg.mediaDimBrightnessPct = none then
      applyMediaDimming cfg env s0
    else s0
  else s0

/-- `_on_media_state`. -/
def onMediaState (cfg : Config) (env : Env) (entity : String)
    (old new : Option String) (s : St) : St :=
  let playing := decide (strLower (new.getD "") = "playing".data)
  let s0 := { s with
    mediaPlaying := playing,
    log := s.log ++ ["media_state"] }
  if ¬ s0.mode = "auto" then s0
  else if playing then
    if isDarkEnough cfg env ∧ anyLightOn cfg env then
      applyMediaDimming cfg env s0
    else s0
  else
    if anyLightOn cfg env then restoreFromMedia cfg s0 else s0

/-- Expiry of a scheduled timer: a handle that is no longer pending
(cancelled or already fired) does nothing; otherwise the purpose's
callback runs. -/
def fireTimer (cfg : Config) (env : Env) (tid : Nat) (s : St) : St :=
  match s.pending.find? (fun t => t.tid = tid) with
  | none => s
  | some t =>
      let s1 := { s with pending := s.pending.filter (fun u => ¬ u.tid = tid) }
      match t.purpose with
      | TPurpose.autoOff => autoOffElapsed cfg env s1
      | TPurpose.motionReauto => reautomateFromMotion cfg env s1
      | TPurpose.manualOffReauto => reautomateFromManualOff cfg env s1
      | TPurpose.alHold e => alResetTimerCb cfg e s1

/-- An inbound event of the controller, carrying the external-world
snapshot at the instant it is dispatched. -/
inductive Ev where
  | motion : String → Option String → Option String → Env → Ev
  | lightPower : String → Option String → Option String → Env → Ev
  | lightAttr : String → String → AVal → AVal → Env → Ev
  | luxChanged : String → AVal → AVal → Env → Ev
  | mediaState : String → Option String → Option String → Env → Ev
  | buttonPress : BtnData → Env → Ev
  | timerFire : Nat → Env → Ev

/-- Single-threaded dispatch of one event. -/
def step (cfg : Config) (s : St) : Ev → St
  | Ev.motion e o n env => onMotion cfg env e o n s
  | Ev.lightPower e o n env => onLightPower cfg env e o n s
  | Ev.lightAttr e a o n env => onLightAttr cfg env e a o n s
  | Ev.luxChanged e o n env => onLuxChanged cfg env e o n s
  | Ev.mediaState e o n env => onMediaState cfg env e o n s
  | Ev.buttonPress d env => onButtonPress cfg env d s
  | Ev.timerFire tid env => fireTimer cfg env tid s

/-- Run of the controller on an event sequence from the initial state. -/
def run (cfg : Config) (evs : List Ev) : St :=
  evs.foldl (step cfg) (initSt 0)

/-! ## Concrete fixtures for closed evaluations -/

/-- A minimal configuration: one light, no optional integrations. -/
def baseCfg : Config :=
  { appName := "zone", lights := ["light.x"], motionEntities := [],
    luxSensor := none, luxThreshold := none, onlyWhenDark := true,
    delayOff := 60, manualOffReautoDelay := 3600, motionReautoSeconds := 5,
    bootGrace := 60, echoWindow := 3, echoMaxWindow := 60,
    mediaPlayers := [], mediaDimBrightnessPct := none,
    autoBrightnessPct := none, alSwitch := none, alUseTargets := true,
    alTakeOverOnManual := true, alManualResetSeconds := some 900,
    alAdaptBrightness := none, alAdaptColor := none, quietStart := none,
    quietEnd := none, blockWindows := [], blockActionsDefault := "on_off" }

/-- An environment snapshot at 23:30 with no entity reading anything. -/
def baseEnv : Env :=
  { now := 1000, nowMin := 23 * 60 + 30, day := "mon",
    entState := fun _ => none, briAttr := fun _ => none,
    lux := AVal.vNone, alAttrs := none }

/-- A block window 22:00-07:00 with the given `actions` string. -/
def nightWindow (acts : String) : Window :=
  { wstart := some (TimeStr.hhmm 22 0 "22:00"),
    wend := some (TimeStr.hhmm 7 0 "07:00"),
    days := none, actions := some (ActVal.s acts) }

/-! ## Claims -/

/-- C6: `_within_window` returns false whenever start equals end; for
start=22:00, end=07:00 (1320 and 420 minutes, wrapping midnight) it
returns true at 23:30, 00:00 and 06:59 and false at 07:00 and 21:59. -/
theorem c6_within_window_semantics :
    (∀ (m now : Int), withinWindow (some m) (some m) now = false) ∧
    withinWindow (some (22 * 60)) (some (7 * 60)) (23 * 60 + 30) = true ∧
    withinWindow (some (22 * 60)) (some (7 * 60)) 0 = true ∧
    withinWindow (some (22 * 60)) (some (7 * 60)) (6 * 60 + 59) = true ∧
    withinWindow (some (22 * 60)) (some (7 * 60)) (7 * 60) = false ∧
    withinWindow (some (22 * 60)) (some (7 * 60)) (21 * 60 + 59) = false := by
  refine ⟨?_, by decide, by decide, by decide, by decide, by decide⟩
  intro m now
  simp [withinWindow]

/-- C1 (code evaluation at the failing input): a block window whose
action set is `"on"` (or `"off"`) is active at 23:30, yet
`_automation_allowed` still returns true for that very action, because
the reason string `"on 22:00-07:00"` starts with the action word and so
never contains the searched substring `" on"` / `" off"`.  Only
`"on_off"` windows actually block.  This contradicts the claim (and the
spec, which the action-specific membership test in the code clearly
intends to implement). -/
theorem c1_action_specific_window_does_not_block :
    blockedNow { baseCfg with blockWindows := [nightWindow "on"] } baseEnv
      = (true, some "on 22:00-07:00") ∧
    automationAllowed { baseCfg with blockWindows := [nightWindow "on"] }
      baseEnv "on" = true ∧
    blockedNow { baseCfg with blockWindows := [nightWindow "off"] } baseEnv
      = (true, some "off 22:00-07:00") ∧
    automationAllowed { baseCfg with blockWindows := [nightWindow "off"] }
      baseEnv "off" = true ∧
    automationAllowed { baseCfg with blockWindows := [nightWindow "on_off"] }
      baseEnv "on" = false ∧
    automationAllowed { baseCfg with blockWindows := [nightWindow "on_off"] }
      baseEnv "off" = false ∧
    automationAllowed baseCfg baseEnv "on" = true ∧
    automationAllowed baseCfg baseEnv "off" = true := by
  decide

/-- A window that never matches is skipped: the rest of the list is
evaluated as if it were absent. -/
theorem blockedNowWindows_skip (dflt : String) (env : Env) (w : Window)
    (hw : windowMatches w env = false) (ws1 ws2 : List Window) :
    blockedNowWindows dflt env (ws1 ++ w :: ws2)
      = blockedNowWindows dflt env (ws1 ++ ws2) := by
  induction ws1 with
  | nil => simp [blockedNowWindows, hw]
  | cons a tl ih => simp [blockedNowWindows, ih]

/-- A window with an unparsable end bound never matches any time. -/
theorem withinWindow_none_end (s : Option Int) (now : Int) :
    withinWindow s none now = false := by
  cases s <;> rfl

/-- A window whose start (or end) raw time string is malformed never
matches. -/
theorem windowMatches_malformed (w : Window) (env : Env) (msg : String) :
    windowMatches { w with wstart := some (TimeStr.malformed msg) } env
        = false ∧
    windowMatches { w with wend := some (TimeStr.malformed msg) } env
        = false := by
  constructor
  · simp [windowMatches, parseHhmm, withinWindow]
  · simp [windowMatches, parseHhmm, withinWindow_none_end]

/-- C9: a missing or non-numeric illuminance reading makes
`_is_dark_enough` return true (fail toward acting); and a block window
whose start or end time string is malformed is skipped by
`_blocked_now` while every other window is still evaluated in order. -/
theorem c9_malformed_readings_fail_open :
    (∀ (cfg : Config) (env : Env) (s : String),
      isDarkEnough cfg { env with lux := AVal.bad s } = true) ∧
    (∀ (cfg : Config) (env : Env),
      isDarkEnough cfg { env with lux := AVal.vNone } = true) ∧
    (∀ (cfg : Config) (env : Env) (ws1 ws2 : List Window) (w : Window)
        (msg : String),
      blockedNow { cfg with blockWindows :=
          ws1 ++ { w with wstart := some (TimeStr.malformed msg) } :: ws2 }
        env = blockedNow { cfg with blockWindows := ws1 ++ ws2 } env) ∧
    (∀ (cfg : Config) (env : Env) (ws1 ws2 : List Window) (w : Window)
        (msg : String),
      blockedNow { cfg with blockWindows :=
          ws1 ++ { w with wend := some (TimeStr.malformed msg) } :: ws2 }
        env = blockedNow { cfg with blockWindows := ws1 ++ ws2 } env) := by
  refine ⟨?_, ?_, ?_, ?_⟩
  · intro cfg env s
    unfold isDarkEnough
    split
    · rfl
    · simp [toFloat]
  · intro cfg env
    unfold isDarkEnough
    split
    · rfl
    · simp [toFloat]
  · intro cfg env ws1 ws2 w msg
    unfold blockedNow
    rw [show ({ cfg with blockWindows :=
        ws1 ++ { w with wstart := some (TimeStr.malformed msg) } :: ws2 }
        : Config).blockWindows
      = ws1 ++ { w with wstart := some (TimeStr.malformed msg) } :: ws2
      from rfl]
    rw [blockedNowWindows_skip _ _ _ ((windowMatches_malformed w env msg).1)]
  · intro cfg env ws1 ws2 w msg
    unfold blockedNow
    rw [show ({ cfg with blockWindows :=
        ws1 ++ { w with wend := some (TimeStr.malformed msg) } :: ws2 }
        : Config).blockWindows
      = ws1 ++ { w with wend := some (TimeStr.malformed msg) } :: ws2
      from rfl]
    rw [blockedNowWindows_skip _ _ _ ((windowMatches_malformed w env msg).2)]

/-- C7: with the Adaptive Lighting switch configured and a defined
brightness target, a brightness-attribute change whose value converted
to percentage (for the 0-255 `brightness` attribute:
round-half-even of `new * 100 / 255`; for `brightness_pct`: the value
itself) is within 3 percentage points of the target is classified as
the service's own change; with a defined color-temperature target, a
color-temperature change whose value converted to Kelvin (for
`color_temp`: `round(1000000 / mireds)`, undefined for mireds ≤ 0; for
`color_temp_kelvin`: the value itself) is within 150 K of the target is
likewise classified as the service's own change. -/
theorem c7_al_own_adaptation_tolerance :
    (∀ (cfg : Config) (env : Env) (sw ent : String) (old : AVal)
        (bt q : Int),
      cfg.alSwitch = some sw →
      (alCurrentTargets cfg env).1 = some bt →
      |bt - roundHEDiv (q * 100) 255| ≤ 3 →
      alIsChangeLikeAl cfg env ent "brightness" old (AVal.num q) = true) ∧
    (∀ (cfg : Config) (env : Env) (sw ent : String) (old : AVal)
        (bt q : Int),
      cfg.alSwitch = some sw →
      (alCurrentTargets cfg env).1 = some bt →
      |bt - q| ≤ 3 →
      alIsChangeLikeAl cfg env ent "brightness_pct" old (AVal.num q)
        = true) ∧
    (∀ (cfg : Config) (env : Env) (sw ent : String) (old new : AVal)
        (kt vk : Int),
      cfg.alSwitch = some sw →
      (alCurrentTargets cfg env).2.1 = some kt →
      miredsToKelvin new = some vk →
      |kt - vk| ≤ 150 →
      alIsChangeLikeAl cfg env ent "color_temp" old new = true) ∧
    (∀ (cfg : Config) (env : Env) (sw ent : String) (old : AVal)
        (kt q : Int),
      cfg.alSwitch = some sw →
      (alCurrentTargets cfg env).2.1 = some kt →
      |kt - q| ≤ 150 →
      alIsChangeLikeAl cfg env ent "color_temp_kelvin" old (AVal.num q)
        = true) ∧
    (∀ m : Int, 0 < m →
      miredsToKelvin (AVal.num m) = some (roundHEDiv 1000000 m)) ∧
    (∀ m : Int, m ≤ 0 → miredsToKelvin (AVal.num m) = none) := by
  refine ⟨?_, ?_, ?_, ?_, ?_, ?_⟩
  · intro cfg env sw ent old bt q hsw hbt hle
    unfold alIsChangeLikeAl
    rcases h : alCurrentTargets cfg env with ⟨briT, ctT, ab, ac⟩
    rw [h] at hbt
    simp only at hbt
    simp [hsw, h, hbt, hle]
  · intro cfg env sw ent old bt q hsw hbt hle
    unfold alIsChangeLikeAl
    rcases h : alCurrentTargets cfg env with ⟨briT, ctT, ab, ac⟩
    rw [h] at hbt
    simp only at hbt
    simp [hsw, h, hbt, hle]
  · intro cfg env sw ent old new kt vk hsw hkt hmk hle
    unfold alIsChangeLikeAl
    rcases h : alCurrentTargets cfg env with ⟨briT, ctT, ab, ac⟩
    rw [h] at hkt
    simp only at hkt
    simp [hsw, h, hkt, hmk, hle]
  · intro cfg env sw ent old kt q hsw hkt hle
    unfold alIsChangeLikeAl
    rcases h : alCurrentTargets cfg env with ⟨briT, ctT, ab, ac⟩
    rw [h] at hkt
    simp only at hkt
    simp [hsw, h, hkt, hle]
  · intro m hm
    simp [miredsToKelvin, not_le.mpr hm]
  · intro m hm
    simp [miredsToKelvin, hm]

/-- Configuration with an Adaptive Lighting switch, for C7. -/
def c7cfg : Config := { baseCfg with alSwitch := some "switch.al" }

/-- Adaptive Lighting switch attributes: target brightness 40 % and
target color temperature 3000 K. -/
def c7attrs : AlAttrs :=
  { brightnessPct := some 40, brightness := none,
    colorTempKelvin := some 3000, colorTemp := none,
    adaptBrightness := none, adaptColor := none }

/-- Environment in which the Adaptive Lighting switch exposes
`c7attrs`. -/
def c7env : Env := { baseEnv with alAttrs := some c7attrs }

/-- Witness for C7: brightness target 40 %, raw brightness 107
(= 42 %) and brightness_pct 42 are within 3 points; color target
3000 K, 345 mireds (= 2899 K) and 2950 K are within 150 K; and the
mireds conversion at 400 and 0. -/
theorem c7_al_own_adaptation_tolerance_witness :
    alIsChangeLikeAl c7cfg c7env "light.x" "brightness" AVal.vNone
        (AVal.num 107) = true ∧
    alIsChangeLikeAl c7cfg c7env "light.x" "brightness_pct" AVal.vNone
        (AVal.num 42) = true ∧
    alIsChangeLikeAl c7cfg c7env "light.x" "color_temp" AVal.vNone
        (AVal.num 345) = true ∧
    alIsChangeLikeAl c7cfg c7env "light.x" "color_temp_kelvin" AVal.vNone
        (AVal.num 2950) = true ∧
    miredsToKelvin (AVal.num 400) = some 2500 ∧
    miredsToKelvin (AVal.num 0) = none :=
  ⟨c7_al_own_adaptation_tolerance.1 c7cfg c7env "switch.al" "light.x"
      AVal.vNone 40 107 rfl (by decide) (by decide),
    c7_al_own_adaptation_tolerance.2.1 c7cfg c7env "switch.al" "light.x"
      AVal.vNone 40 42 rfl (by decide) (by decide),
    c7_al_own_adaptation_tolerance.2.2.1 c7cfg c7env "switch.al" "light.x"
      AVal.vNone (AVal.num 345) 3000 2899 rfl (by decide) (by decide)
      (by decide),
    c7_al_own_adaptation_tolerance.2.2.2.1 c7cfg c7env "switch.al" "light.x"
      AVal.vNone 3000 2950 rfl (by decide) (by decide),
    c7_al_own_adaptation_tolerance.2.2.2.2.1 400 (by decide),
    c7_al_own_adaptation_tolerance.2.2.2.2.2 0 (by decide)⟩

/-- Characterization of `_ignore_if_expected_echo` on an unexpired,
direction-matching expectation: the report is suppressed; on the first
match the expectation is acknowledged and one log line is emitted, and
afterwards the state is untouched. -/
theorem ignoreIfExpectedEcho_match (env : Env) (s : St) (entity : String)
    (old new : Option String) (exp : EchoExp)
    (hget : dictGet s.expectedEcho entity = some exp)
    (hun : ¬ exp.expUntil < env.now)
    (hdir : (exp.expected = "on" ∧ stateOnStr old = false ∧
        stateOnStr new = true) ∨
      (exp.expected = "off" ∧ stateOnStr old = true ∧
        stateOnStr new = false)) :
    ignoreIfExpectedEcho env s entity old new =
      (true, if exp.logged then s
        else { s with
          expectedEcho :=
            dictSet s.expectedEcho entity { exp with logged := true },
          log := s.log ++ ["echo_ignored"] }) := by
  unfold ignoreIfExpectedEcho
  rw [hget]
  simp only [if_neg hun]
  rcases hdir with ⟨he, ho, hn⟩ | ⟨he, ho, hn⟩
  · simp [he, ho, hn]
    cases hl : exp.logged <;> simp [hl]
  · have hne : ¬ (exp.expected = "on") := by simp [he]
    simp [he, ho, hn, hne]
    cases hl : exp.logged <;> simp [hl]

/-- C5: a light-power notification with an unexpired, direction-matching
`EchoExpectation` never changes the controller mode; past the boot
grace, the first such suppressed match sets the `logged` acknowledgment
flag and emits exactly one log line, and any later matching report
before expiry leaves the state entirely unchanged (suppressed without
logging again). -/
theorem c5_echo_suppression_total (cfg : Config) (env : Env) (s : St)
    (entity : String) (old new : Option String) (exp : EchoExp)
    (hget : dictGet s.expectedEcho entity = some exp)
    (hun : ¬ exp.expUntil < env.now)
    (hdir : (exp.expected = "on" ∧ stateOnStr old = false ∧
        stateOnStr new = true) ∨
      (exp.expected = "off" ∧ stateOnStr old = true ∧
        stateOnStr new = false)) :
    (onLightPower cfg env entity old new s).mode = s.mode ∧
    (¬ env.now - s.startedTs < cfg.bootGrace →
      (exp.logged = false →
        onLightPower cfg env entity old new s = { s with
          expectedEcho :=
            dictSet s.expectedEcho entity { exp with logged := true },
          log := s.log ++ ["echo_ignored"] }) ∧
      (exp.logged = true →
        onLightPower cfg env entity old new s = s)) := by
  have hig := ignoreIfExpectedEcho_match env s entity old new exp hget hun hdir
  unfold onLightPower
  by_cases hg : env.now - s.startedTs < cfg.bootGrace
  · simp only [if_pos hg]
    exact ⟨trivial, fun hng => absurd hg hng⟩
  · simp only [if_neg hg, hig]
    cases hl : exp.logged <;> simp [hl]

/-- Controller state for the C5 witness: one unacknowledged "off"
expectation for `light.x` expiring at t=113. -/
def c5st : St :=
  { initSt 0 with expectedEcho := [("light.x", ⟨113, "off", false⟩)] }

/-- Witness for C5 at t=110 (past the 60 s boot grace, before expiry):
the matching on→off report is suppressed, the mode is unchanged, the
expectation is acknowledged and one log line is emitted. -/
theorem c5_echo_suppression_total_witness :
    (onLightPower baseCfg { baseEnv with now := 110 } "light.x"
        (some "on") (some "off") c5st).mode = c5st.mode ∧
    onLightPower baseCfg { baseEnv with now := 110 } "light.x"
        (some "on") (some "off") c5st = { c5st with
          expectedEcho := [("light.x", ⟨113, "off", true⟩)],
          log := ["echo_ignored"] } := by
  have h := c5_echo_suppression_total baseCfg { baseEnv with now := 110 }
    c5st "light.x" (some "on") (some "off") ⟨113, "off", false⟩
    (by decide) (by decide) (Or.inr ⟨rfl, by decide, by decide⟩)
  refine ⟨h.1, ?_⟩
  have h2 := (h.2 (by decide)).1 rfl
  rw [h2]
  decide

/-- A change whose new value is a non-numeric string never looks like
Adaptive Lighting's own nudge (the conversions yield no comparable
value, or `int(new)` raises into the catch-all). -/
theorem alIsChangeLikeAl_bad (cfg : Config) (env : Env) (ent attr : String)
    (old : AVal) (b : String) :
    alIsChangeLikeAl cfg env ent attr old (AVal.bad b) = false := by
  unfold alIsChangeLikeAl
  split
  · rfl
  · rcases h : alCurrentTargets cfg env with ⟨briT, ctT, ab, ac⟩
    simp only [h]
    split
    · cases briT
      · rfl
      · simp
    · cases ctT
      · rfl
      · simp [miredsToKelvin]

/-- `_cancel_timer_safe` does not change the mode. -/
theorem cancelTimerSafe_mode (h : Option Nat) (s : St) :
    (cancelTimerSafe h s).mode = s.mode := by
  cases h <;> rfl

/-- `_al_set_manual_control` does not change the mode. -/
theorem alSetManualControl_mode (cfg : Config) (ls : Option (List String))
    (s : St) : (alSetManualControl cfg ls s).mode = s.mode := by
  unfold alSetManualControl
  split <;> rfl

/-- `_al_schedule_reset_for` does not change the mode. -/
theorem alScheduleResetFor_mode (cfg : Config) (e : String) (s : St) :
    (alScheduleResetFor cfg e s).mode = s.mode := by
  simp only [alScheduleResetFor]
  cases hd : dictGet s.alManualTimers e <;>
    simp only [hd, cancelTimerSafe, runIn] <;> split <;> rfl

/-- C10: a brightness or color-temperature change whose old OR new
value is a (truthy) non-numeric string makes `_changed_meaningfully`
return true (the `float` conversion raises into the permissive
catch-all), so on a light that is on, past the boot grace and the
post-command recency window, a change that does not match the
adaptation target drives the controller into `manual_on`. -/
theorem c10_malformed_attr_drives_manual_on (cfg : Config) (env : Env)
    (s : St) (entity attr : String) (old new : AVal) (b : String)
    (hg : ¬ env.now - s.startedTs < cfg.bootGrace)
    (hrc : recentAppChange cfg env s entity = false)
    (hattr : attr = "brightness" ∨ attr = "brightness_pct" ∨
      attr = "color_temp" ∨ attr = "color_temp_kelvin")
    (hb : ¬ b = "")
    (hmal : new = AVal.bad b ∨ old = AVal.bad b)
    (hal : alIsChangeLikeAl cfg env entity attr old new = false)
    (hon : stateOnStr (env.entState entity) = true) :
    changedMeaningfully attr old new = true ∧
    (onLightAttr cfg env entity attr old new s).mode = "manual_on" := by
  have htr : avTruthy (AVal.bad b) = true := by
    simp [avTruthy, hb]
  have hnf : toFloat (pyOr0 (AVal.bad b)) = none := by
    simp [pyOr0, htr, toFloat]
  have hcm : changedMeaningfully attr old new = true := by
    rcases hmal with rfl | rfl
    · unfold changedMeaningfully
      rcases hattr with h | h | h | h <;> simp only [h] <;>
        cases hfo : toFloat (pyOr0 old) <;> simp [hnf]
    · unfold changedMeaningfully
      rcases hattr with h | h | h | h <;> simp only [h] <;>
        cases hfn : toFloat (pyOr0 new) <;> simp [hnf, hfn]
  refine ⟨hcm, ?_⟩
  unfold onLightAttr
  rw [if_neg hg, hrc]
  by_cases hm : s.mode = "manual_on"
  · simp [hal, hcm, hon, hm, alScheduleResetFor_mode,
      alSetManualControl_mode, cancelTimerSafe_mode]
  · simp [hal, hcm, hon, hm, alScheduleResetFor_mode,
      alSetManualControl_mode, cancelTimerSafe_mode]

/-- Environment for the C10 witness: t=100 (past the 60 s boot grace)
with the light reading on. -/
def c10env : Env :=
  { baseEnv with now := 100, entState := fun _ => some "on" }

/-- Witness for C10, covering both directions: an unparsable new
`brightness_pct` of `"oops"` after a numeric old value, and an
unparsable old `color_temp_kelvin` of `"oops"` before a numeric new
value; in both the meaningful-change check returns true and the
controller enters `manual_on`. -/
theorem c10_malformed_attr_drives_manual_on_witness :
    changedMeaningfully "brightness_pct" (AVal.num 50) (AVal.bad "oops")
        = true ∧
    (onLightAttr baseCfg c10env "light.x" "brightness_pct"
        (AVal.num 50) (AVal.bad "oops") (initSt 0)).mode = "manual_on" ∧
    changedMeaningfully "color_temp_kelvin" (AVal.bad "oops")
        (AVal.num 3000) = true ∧
    (onLightAttr baseCfg c10env "light.x" "color_temp_kelvin"
        (AVal.bad "oops") (AVal.num 3000) (initSt 0)).mode
      = "manual_on" := by
  have h1 := c10_malformed_attr_drives_manual_on baseCfg c10env
    (initSt 0) "light.x" "brightness_pct" (AVal.num 50) (AVal.bad "oops")
    "oops" (by decide) (by decide) (Or.inr (Or.inl rfl)) (by decide)
    (Or.inl rfl) (by decide) (by decide)
  have h2 := c10_malformed_attr_drives_manual_on baseCfg c10env
    (initSt 0) "light.x" "color_temp_kelvin" (AVal.bad "oops")
    (AVal.num 3000) "oops" (by decide) (by decide)
    (Or.inr (Or.inr (Or.inr rfl))) (by decide) (Or.inr rfl) (by decide)
    (by decide)
  exact ⟨h1.1, h1.2, h2.1, h2.2⟩

/-- `_turn_on` appends exactly its service calls to the command stream. -/
theorem turnOn_cmds (cfg : Config) (env : Env) (r : String) (s : St) :
    (turnOn cfg env r s).cmds = s.cmds ++ turnOnCmds cfg env s.mediaPlaying :=
  rfl

/-- `_turn_off` appends exactly its service calls to the command stream. -/
theorem turnOff_cmds (cfg : Config) (env : Env) (r : String) (s : St) :
    (turnOff cfg env r s).cmds = s.cmds ++ turnOffCmds cfg :=
  rfl

/-- Configuration for the C2 counterexample: an active `on_off` window
blocks both actions at 23:30. -/
def c2cfg : Config := { baseCfg with blockWindows := [nightWindow "on_off"] }

/-- C2 counterexample: with OFF blocked (active `on_off` window) the
motion and manual-off re-automation timers still issue turn-off
commands when presence is absent (the claim requires no command), and
the explicit button request issues a turn-on although ON is blocked
(the claim requires the ON-block check on every path). -/
theorem c2_blocked_reautomation_still_commands :
    automationAllowed c2cfg baseEnv "off" = false ∧
    (reautomateFromMotion c2cfg baseEnv (initSt 0)).cmds
      = [Cmd.lightTurnOff "light.x"] ∧
    (reautomateFromManualOff c2cfg baseEnv (initSt 0)).cmds
      = [Cmd.lightTurnOff "light.x"] ∧
    automationAllowed c2cfg baseEnv "on" = false ∧
    (onButtonPress c2cfg baseEnv
        ⟨some "button", some "press", some ["button.reautomate_zone"]⟩
        { initSt 0 with presence := true }).cmds
      = [Cmd.lightTurnOn "light.x" none none] := by
  decide

/-- C2 (amended): on the two timer re-automation paths the handler
issues the turn-on commands exactly when presence holds, the darkness
condition holds and ON is not blocked; when presence and darkness hold
but ON is blocked it issues no command and leaves the lights unchanged
(logging the suppression); and when presence or darkness fails it
issues the turn-off commands unconditionally, even when OFF is
blocked.  The explicit button request issues turn-on exactly when
presence and darkness hold, without consulting the block evaluator at
all, and otherwise turn-off unconditionally. -/
theorem c2_reautomation_paths_amended :
    (∀ (cfg : Config) (env : Env) (s : St),
      (reautomateFromMotion cfg env s).cmds = s.cmds ++
        (if s.presence ∧ isDarkEnough cfg env then
          (if automationAllowed cfg env "on" then
            turnOnCmds cfg env s.mediaPlaying
          else [])
        else turnOffCmds cfg)) ∧
    (∀ (cfg : Config) (env : Env) (s : St),
      (reautomateFromManualOff cfg env s).cmds = s.cmds ++
        (if s.presence ∧ isDarkEnough cfg env then
          (if automationAllowed cfg env "on" then
            turnOnCmds cfg env s.mediaPlaying
          else [])
        else turnOffCmds cfg)) ∧
    (∀ (cfg : Config) (env : Env) (s : St),
      (onButtonPress cfg env
          ⟨some "button", some "press",
            some ["button.reautomate_" ++ cfg.appName]⟩ s).cmds
        = s.cmds ++
          (if s.presence ∧ isDarkEnough cfg env then
            turnOnCmds cfg env s.mediaPlaying
          else turnOffCmds cfg)) := by
  refine ⟨?_, ?_, ?_⟩
  · intro cfg env s
    unfold reautomateFromMotion
    by_cases h1 : s.presence ∧ isDarkEnough cfg env
    · by_cases h2 : automationAllowed cfg env "on"
      · simp [h1, h2, turnOn_cmds]
      · simp [h1, h2]
    · simp [h1, turnOff_cmds]
  · intro cfg env s
    unfold reautomateFromManualOff
    by_cases h1 : s.presence ∧ isDarkEnough cfg env
    · by_cases h2 : automationAllowed cfg env "on"
      · simp [h1, h2, turnOn_cmds]
      · simp [h1, h2]
    · simp [h1, turnOff_cmds]
  · intro cfg env s
    unfold onButtonPress
    simp only [Option.some.injEq]
    by_cases h1 : s.presence ∧ isDarkEnough cfg env
    · simp [h1, turnOn_cmds]
    · simp [h1, turnOff_cmds]

/-- None of the actions taken inside `_on_motion` after the initial
assignment touch the presence flag. -/
theorem cancelTimerSafe_presence (h : Option Nat) (s : St) :
    (cancelTimerSafe h s).presence = s.presence := by
  cases h <;> rfl

/-- `_turn_on` does not touch the presence flag. -/
theorem turnOn_presence (cfg : Config) (env : Env) (r : String) (s : St) :
    (turnOn cfg env r s).presence = s.presence := rfl

/-- `_turn_off` does not touch the presence flag. -/
theorem turnOff_presence (cfg : Config) (env : Env) (r : String) (s : St) :
    (turnOff cfg env r s).presence = s.presence := rfl

/-- `_apply_media_dimming` does not touch the presence flag. -/
theorem applyMediaDimming_presence (cfg : Config) (env : Env) (s : St) :
    (applyMediaDimming cfg env s).presence = s.presence := by
  unfold applyMediaDimming
  cases cfg.mediaDimBrightnessPct
  · rfl
  · rfl

/-- `_schedule_off` does not touch the presence flag. -/
theorem scheduleOff_presence (cfg : Config) (s : St) :
    (scheduleOff cfg s).presence = s.presence := by
  unfold scheduleOff
  rw [show (runIn TPurpose.autoOff (cancelTimerSafe s.offTimer s)).2.presence
      = (cancelTimerSafe s.offTimer s).presence from rfl]
  exact cancelTimerSafe_presence _ _

/-- C3 (amended): after `_on_motion` processes a presence-sensor event,
the controller's presence flag equals the occupancy interpretation of
that event's new value alone — not the OR over all configured sensors. -/
theorem c3_presence_is_last_event_value (cfg : Config) (env : Env)
    (entity : String) (old new : Option String) (s : St) :
    (onMotion cfg env entity old new s).presence = isOccupiedVal new := by
  simp only [onMotion]
  by_cases hm : s.mode = "manual_on" ∧ isOccupiedVal new = true
  · rw [if_pos hm]
    split_ifs <;>
      simp [turnOn_presence, cancelTimerSafe_presence,
        applyMediaDimming_presence, scheduleOff_presence, runIn]
  · rw [if_neg hm]
    split_ifs <;>
      simp [turnOn_presence, cancelTimerSafe_presence,
        applyMediaDimming_presence, scheduleOff_presence, runIn]

/-- Configuration for the C3 counterexample: two presence sensors. -/
def c3cfg : Config :=
  { baseCfg with motionEntities := ["binary_sensor.a", "binary_sensor.b"] }

/-- Environment in which sensor `a` currently reads occupied and sensor
`b` reads clear. -/
def c3env : Env :=
  { baseEnv with entState := fun e =>
      if e = "binary_sensor.a" then some "on" else some "off" }

/-- C3 counterexample: sensor `b` reports off while sensor `a` still
reads on (the OR over all sensors is true), yet after the event the
controller's presence flag is false — presence is set from the single
event's new value, not recomputed as the OR of all sensors. -/
theorem c3_presence_not_or_of_sensors :
    anyMotionOn c3cfg c3env = true ∧
    (onMotion c3cfg c3env "binary_sensor.b" (some "on") (some "off")
        (initSt 0)).presence = false := by
  decide

/-- Lookup is unchanged by filtering out a different key. -/
theorem dictGet_filter_ne {α : Type} (d : List (String × α)) (k l : String)
    (h : ¬ l = k) :
    dictGet (d.filter (fun p => ¬ p.1 = k)) l = dictGet d l := by
  induction d with
  | nil => rfl
  | cons a tl ih =>
    by_cases ha : a.1 = k
    · have hal : ¬ a.1 = l := by
        rw [ha]; exact fun hh => h hh.symm
      rw [List.filter_cons_of_neg (by simpa using ha), ih]
      simp only [dictGet]
      rw [if_neg hal]
    · rw [List.filter_cons_of_pos (by simpa using ha)]
      simp only [dictGet]
      rw [ih]

/-- Lookup after a dictionary update. -/
theorem dictGet_set {α : Type} (d : List (String × α)) (k l : String)
    (v : α) :
    dictGet (dictSet d k v) l = if l = k then some v else dictGet d l := by
  by_cases h : l = k
  · subst h
    simp only [dictSet, dictGet]
    simp
  · have hk : ¬ k = l := fun hh => h hh.symm
    rw [if_neg h]
    simp only [dictSet, dictGet]
    rw [if_neg hk]
    exact dictGet_filter_ne d k l h

/-- Lookup after a dictionary removal. -/
theorem dictGet_pop {α : Type} (d : List (String × α)) (k l : String)
    (h : ¬ l = k) :
    dictGet (dictPop d k) l = dictGet d l := by
  simp only [dictPop]
  exact dictGet_filter_ne d k l h

/-- Keys only accumulate across the `_apply_media_dimming` loop. -/
theorem mediaDimLoop_keys_mono (env : Env) (t : Int) (ls : List String)
    (l : String) :
    ∀ m : List (String × Option Int), (dictGet m l).isSome →
      (dictGet (mediaDimLoop env t ls m).1 l).isSome := by
  induction ls with
  | nil => exact fun m h => h
  | cons a tl ih =>
    intro m h
    unfold mediaDimLoop
    split
    · exact ih m h
    · apply ih
      split
      · rw [dictGet_set]
        split
        · rfl
        · exact h
      · exact h

/-- After one run of the `_apply_media_dimming` loop every
`light.`-prefixed member of the group has a captured entry. -/
theorem mediaDimLoop_covers (env : Env) (t : Int) (ls : List String)
    (l : String) (hpre : strStarts "light." l = true) :
    ∀ m : List (String × Option Int), l ∈ ls →
      (dictGet (mediaDimLoop env t ls m).1 l).isSome := by
  induction ls with
  | nil => intro m hl; cases hl
  | cons a tl ih =>
    intro m hl
    unfold mediaDimLoop
    rcases List.mem_cons.mp hl with rfl | hmem
    · rw [if_neg (by simp [hpre])]
      apply mediaDimLoop_keys_mono
      split
      · rw [dictGet_set]
        simp
      · next hh =>
        cases hcase : dictGet m l
        · rw [hcase] at hh; simp at hh
        · rfl
    · split
      · exact ih m hmem
      · exact ih _ hmem

/-- A second run of the `_apply_media_dimming` loop over an
already-covering capture map changes nothing. -/
theorem mediaDimLoop_stable (env : Env) (t : Int) (ls : List String)
    (m : List (String × Option Int))
    (h : ∀ l ∈ ls, strStarts "light." l = true → (dictGet m l).isSome) :
    (mediaDimLoop env t ls m).1 = m := by
  induction ls with
  | nil => rfl
  | cons a tl ih =>
    unfold mediaDimLoop
    split
    · exact ih (fun l hl hp => h l (List.mem_cons_of_mem a hl) hp)
    · next ha =>
      have hsome : (dictGet m a).isSome :=
        h a (List.mem_cons_self a tl) (by simpa using ha)
      have hnone : ¬ ((dictGet m a).isNone = true) := by
        cases hcase : dictGet m a
        · rw [hcase] at hsome; simp at hsome
        · simp [hcase]
      rw [if_neg hnone]
      exact ih (fun l hl hp => h l (List.mem_cons_of_mem a hl) hp)

/-- `_restore_from_media` with an empty capture map and no configured
auto brightness is the identity. -/
theorem restoreFromMedia_of_empty (cfg : Config) (s : St)
    (hm : s.beforeMediaBri = []) (ha : cfg.autoBrightnessPct = none) :
    restoreFromMedia cfg s = s := by
  unfold restoreFromMedia
  rw [if_pos hm, ha]

/-- Configuration for the C8 counterexample: dim to 20 %, auto
brightness 50 %. -/
def c8cfg : Config :=
  { baseCfg with
    autoBrightnessPct := some 50,
    mediaDimBrightnessPct := some 20 }

/-- State in which a pre-dim brightness of 80 % was captured. -/
def c8st : St := { initSt 0 with beforeMediaBri := [("light.x", some 80)] }

/-- C8 counterexample: with a configured default auto brightness the
second restoration is NOT a no-op: the first restore re-issues the
captured 80 % and empties the map, but the second issues a further
`light/turn_on` at the default 50 % (the fallback branch), so commands
are issued even though the captured map is already empty. -/
theorem c8_second_restore_not_noop :
    (restoreFromMedia c8cfg c8st).beforeMediaBri = [] ∧
    (restoreFromMedia c8cfg c8st).cmds
      = [Cmd.lightTurnOn "light.x" (some 80) none] ∧
    (restoreFromMedia c8cfg (restoreFromMedia c8cfg c8st)).cmds
      = [Cmd.lightTurnOn "light.x" (some 80) none,
          Cmd.lightTurnOn "light.x" (some 50) none] := by
  decide

/-- C8 (amended): applying media dimming twice in a row captures each
light's pre-dim brightness only on the first application — the second
leaves the captured map unchanged; and restoring twice in a row is a
no-op the second time provided no default auto brightness is
configured (with one configured, the second restoration issues the
default-brightness commands instead — the captured map is empty after
the first restoration either way). -/
theorem c8_media_dim_idempotence :
    (∀ (cfg : Config) (env : Env) (s : St),
      (applyMediaDimming cfg env (applyMediaDimming cfg env s)).beforeMediaBri
        = (applyMediaDimming cfg env s).beforeMediaBri) ∧
    (∀ (cfg : Config) (s : St),
      restoreFromMedia { cfg with autoBrightnessPct := none }
          (restoreFromMedia { cfg with autoBrightnessPct := none } s)
        = restoreFromMedia { cfg with autoBrightnessPct := none } s) := by
  constructor
  · intro cfg env s
    unfold applyMediaDimming
    cases hd : cfg.mediaDimBrightnessPct
    · rfl
    · next target =>
      simp only
      apply mediaDimLoop_stable
      intro l hl hp
      exact mediaDimLoop_covers env target cfg.lights l hp s.beforeMediaBri hl
  · intro cfg s
    by_cases hm : s.beforeMediaBri = []
    · rw [restoreFromMedia_of_empty _ _ hm rfl,
        restoreFromMedia_of_empty _ _ hm rfl]
    · apply restoreFromMedia_of_empty
      · unfold restoreFromMedia
        rw [if_neg hm]
      · rfl

/-- Number of pending timers of one purpose. -/
def countPurpose (s : St) (p : TPurpose) : Nat :=
  (s.pending.filter (fun t => t.purpose = p)).length

/-- Event sequence for the C4 counterexample: a manual OFF at t=100
schedules the first manual-off re-automation timer; the button press at
t=110 returns to auto (its own echo expires at t=113); a second manual
OFF at t=120 schedules another manual-off timer while the first is
still pending. -/
def c4evs : List Ev :=
  [Ev.lightPower "light.x" (some "on") (some "off")
      { baseEnv with now := 100 },
    Ev.buttonPress
      ⟨some "button", some "press", some ["button.reautomate_zone"]⟩
      { baseEnv with now := 110 },
    Ev.lightPower "light.x" (some "on") (some "off")
      { baseEnv with now := 120 }]

/-- C4 counterexample: the manual-off re-automation timer is scheduled
by `run_in` without cancelling (or even storing) any prior instance, so
after the sequence above two manual-off re-automation timers are
pending at once — the claim's "at most one timer of each purpose" and
"every schedule request cancels the prior pending instance" both fail
for this purpose. -/
theorem c4_two_manual_off_timers_pending :
    countPurpose (run baseCfg c4evs) TPurpose.manualOffReauto = 2 := by
  decide

/-- Timer bookkeeping invariant: pending handles are fresh and
duplicate-free, and every pending auto-off, quick-re-automate or
per-light hold timer is the one recorded in the corresponding handle
field.  (Nothing is claimed about manual-off re-automation timers: the
code neither stores nor cancels their handles.) -/
def TInv (s : St) : Prop :=
  (∀ t ∈ s.pending, t.tid < s.nextId) ∧
  (s.pending.map (fun t => t.tid)).Nodup ∧
  (∀ t ∈ s.pending, t.purpose = TPurpose.autoOff →
    s.offTimer = some t.tid) ∧
  (∀ t ∈ s.pending, t.purpose = TPurpose.motionReauto →
    s.motionReautoTimer = some t.tid) ∧
  (∀ t ∈ s.pending, ∀ e, t.purpose = TPurpose.alHold e →
    dictGet s.alManualTimers e = some t.tid)

/-- The invariant only reads the five timer fields. -/
theorem TInv_of_eq {s s' : St}
    (hp : s'.pending = s.pending) (hn : s'.nextId = s.nextId)
    (ho : s'.offTimer = s.offTimer)
    (hm : s'.motionReautoTimer = s.motionReautoTimer)
    (ha : s'.alManualTimers = s.alManualTimers) :
    TInv s → TInv s' := by
  intro hi
  unfold TInv
  rw [hp, hn, ho, hm, ha]
  exact hi

/-- Removing pending timers preserves the invariant. -/
theorem TInv_cancelTimerSafe (h : Option Nat) (s : St) (hi : TInv s) :
    TInv (cancelTimerSafe h s) := by
  cases h with
  | none => exact hi
  | some tid =>
    obtain ⟨h1, h2, h3, h4, h5⟩ := hi
    refine ⟨?_, ?_, ?_, ?_, ?_⟩
    · intro t ht
      exact h1 t (List.mem_of_mem_filter ht)
    · exact ((List.filter_sublist s.pending).map _).nodup h2
    · intro t ht
      exact h3 t (List.mem_of_mem_filter ht)
    · intro t ht
      exact h4 t (List.mem_of_mem_filter ht)
    · intro t ht
      exact h5 t (List.mem_of_mem_filter ht)

/-- `_turn_on` does not touch the timer fields. -/
theorem TInv_turnOn (cfg : Config) (env : Env) (r : String) (s : St)
    (hi : TInv s) : TInv (turnOn cfg env r s) :=
  TInv_of_eq rfl rfl rfl rfl rfl hi

/-- `_turn_off` does not touch the timer fields. -/
theorem TInv_turnOff (cfg : Config) (env : Env) (r : String) (s : St)
    (hi : TInv s) : TInv (turnOff cfg env r s) :=
  TInv_of_eq rfl rfl rfl rfl rfl hi

/-- `_apply_media_dimming` does not touch the timer fields. -/
theorem TInv_applyMediaDimming (cfg : Config) (env : Env) (s : St)
    (hi : TInv s) : TInv (applyMediaDimming cfg env s) := by
  unfold applyMediaDimming
  cases cfg.mediaDimBrightnessPct
  · exact hi
  · exact TInv_of_eq rfl rfl rfl rfl rfl hi

/-- `_restore_from_media` does not touch the timer fields. -/
theorem TInv_restoreFromMedia (cfg : Config) (s : St) (hi : TInv s) :
    TInv (restoreFromMedia cfg s) := by
  unfold restoreFromMedia
  split
  · cases cfg.autoBrightnessPct
    · exact hi
    · exact TInv_of_eq rfl rfl rfl rfl rfl hi
  · exact TInv_of_eq rfl rfl rfl rfl rfl hi

/-- `_ignore_if_expected_echo` does not touch the timer fields. -/
theorem TInv_ignoreEcho (env : Env) (s : St) (entity : String)
    (old new : Option String) (hi : TInv s) :
    TInv (ignoreIfExpectedEcho env s entity old new).2 := by
  unfold ignoreIfExpectedEcho
  cases hd : dictGet s.expectedEcho entity
  · exact hi
  · dsimp only
    split_ifs <;> exact TInv_of_eq rfl rfl rfl rfl rfl hi

/-- `_al_set_manual_control` does not touch the timer fields. -/
theorem TInv_alSetManualControl (cfg : Config) (ls : Option (List String))
    (s : St) (hi : TInv s) : TInv (alSetManualControl cfg ls s) := by
  unfold alSetManualControl
  split
  · exact hi
  · exact TInv_of_eq rfl rfl rfl rfl rfl hi

/-- `_al_reset` does not touch the timer fields. -/
theorem TInv_alReset (cfg : Config) (ls : Option (List String)) (s : St)
    (hi : TInv s) : TInv (alReset cfg ls s) := by
  unfold alReset
  split
  · exact hi
  · exact TInv_of_eq rfl rfl rfl rfl rfl hi

/-- A duplicate-free list whose members of one kind all share a single
identifier contains at most one member of that kind. -/
theorem count_le_one_of_unique_tid (l : List PendingTimer) (p : TPurpose)
    (k : Nat) (hnd : (l.map (fun t => t.tid)).Nodup)
    (hall : ∀ t ∈ l, t.purpose = p → t.tid = k) :
    (l.filter (fun t => t.purpose = p)).length ≤ 1 := by
  induction l with
  | nil => simp
  | cons a tl ih =>
    rw [List.map_cons, List.nodup_cons] at hnd
    by_cases ha : a.purpose = p
    · rw [List.filter_cons_of_pos (by simpa using ha)]
      have htl : tl.filter (fun t => t.purpose = p) = [] := by
        rw [List.filter_eq_nil_iff]
        intro t ht hts
        have h1 : t.tid = k := hall t (List.mem_cons_of_mem a ht)
          (by simpa using hts)
        have h2 : a.tid = k := hall a (List.mem_cons_self a tl) ha
        have hmem : t.tid ∈ tl.map (fun t => t.tid) :=
          List.mem_map_of_mem (fun t => t.tid) ht
        rw [h1, ← h2] at hmem
        exact hnd.1 hmem
      rw [htl]
      simp
    · rw [List.filter_cons_of_neg (by simpa using ha)]
      exact ih hnd.2 (fun t ht => hall t (List.mem_cons_of_mem a ht))

/-- Cancelling leaves every handle field and the counter unchanged. -/
theorem cancelTimerSafe_fields (h : Option Nat) (s : St) :
    (cancelTimerSafe h s).nextId = s.nextId ∧
    (cancelTimerSafe h s).offTimer = s.offTimer ∧
    (cancelTimerSafe h s).motionReautoTimer = s.motionReautoTimer ∧
    (cancelTimerSafe h s).alManualTimers = s.alManualTimers := by
  cases h <;> exact ⟨rfl, rfl, rfl, rfl⟩

/-- Cancelling only removes pending timers. -/
theorem cancelTimerSafe_pending_sub (h : Option Nat) (s : St)
    (t : PendingTimer) (ht : t ∈ (cancelTimerSafe h s).pending) :
    t ∈ s.pending := by
  cases h with
  | none => exact ht
  | some h0 => exact List.mem_of_mem_filter ht

/-- After `_cancel_timer_safe(self._off_timer)` no auto-off timer is
pending. -/
theorem no_autoOff_after_cancel (s : St) (hi : TInv s) :
    ∀ t ∈ (cancelTimerSafe s.offTimer s).pending,
      ¬ t.purpose = TPurpose.autoOff := by
  intro t ht hp
  cases ho : s.offTimer with
  | none =>
    rw [ho] at ht
    have hcl := hi.2.2.1 t ht hp
    rw [ho] at hcl
    cases hcl
  | some h0 =>
    rw [ho] at ht
    have hmem := List.mem_of_mem_filter ht
    have hcl := hi.2.2.1 t hmem hp
    rw [ho] at hcl
    have htid : t.tid = h0 := by
      injection hcl with hh
      exact hh.symm
    have hfil := List.of_mem_filter ht
    simp [htid] at hfil

/-- After `_cancel_timer_safe(self._motion_reauto_timer)` no
quick-re-automate timer is pending. -/
theorem no_motionReauto_after_cancel (s : St) (hi : TInv s) :
    ∀ t ∈ (cancelTimerSafe s.motionReautoTimer s).pending,
      ¬ t.purpose = TPurpose.motionReauto := by
  intro t ht hp
  cases ho : s.motionReautoTimer with
  | none =>
    rw [ho] at ht
    have hcl := hi.2.2.2.1 t ht hp
    rw [ho] at hcl
    cases hcl
  | some h0 =>
    rw [ho] at ht
    have hmem := List.mem_of_mem_filter ht
    have hcl := hi.2.2.2.1 t hmem hp
    rw [ho] at hcl
    have htid : t.tid = h0 := by
      injection hcl with hh
      exact hh.symm
    have hfil := List.of_mem_filter ht
    simp [htid] at hfil

/-- After popping and cancelling the stored per-light hold handle, no
hold timer for that light is pending. -/
theorem no_alHold_after_popCancel (s : St) (e : String) (hi : TInv s) :
    ∀ t ∈ (cancelTimerSafe (dictGet s.alManualTimers e)
        { s with alManualTimers := dictPop s.alManualTimers e }).pending,
      ¬ t.purpose = TPurpose.alHold e := by
  intro t ht hp
  cases hd : dictGet s.alManualTimers e with
  | none =>
    rw [hd] at ht
    have hcl := hi.2.2.2.2 t ht e hp
    rw [hd] at hcl
    cases hcl
  | some h0 =>
    rw [hd] at ht
    have hmem := List.mem_of_mem_filter ht
    have hcl := hi.2.2.2.2 t hmem e hp
    rw [hd] at hcl
    have htid : t.tid = h0 := by
      injection hcl with hh
      exact hh.symm
    have hfil := List.of_mem_filter ht
    simp [htid] at hfil

/-- A fresh handle is never already pending. -/
theorem fresh_not_mem (s : St) (hb : ∀ t ∈ s.pending, t.tid < s.nextId) :
    ¬ s.nextId ∈ s.pending.map (fun t => t.tid) := by
  intro hmem
  rcases List.mem_map.mp hmem with ⟨t, htm, htt⟩
  have := hb t htm
  rw [htt] at this
  exact lt_irrefl _ this

/-- `_schedule_off` (cancel, then schedule a fresh auto-off timer)
preserves the invariant. -/
theorem TInv_scheduleOff (cfg : Config) (s : St) (hi : TInv s) :
    TInv (scheduleOff cfg s) := by
  have hno := no_autoOff_after_cancel s hi
  obtain ⟨b1, b2, b3, b4, b5⟩ := TInv_cancelTimerSafe s.offTimer s hi
  unfold scheduleOff runIn
  dsimp only
  refine ⟨?_, ?_, ?_, ?_, ?_⟩
  · intro t ht
    rcases List.mem_cons.mp ht with rfl | hmem
    · exact Nat.lt_succ_self _
    · exact Nat.lt_succ_of_lt (b1 t hmem)
  · rw [List.map_cons, List.nodup_cons]
    exact ⟨fresh_not_mem _ b1, b2⟩
  · intro t ht hp
    rcases List.mem_cons.mp ht with rfl | hmem
    · rfl
    · exact absurd hp (hno t hmem)
  · intro t ht hp
    rcases List.mem_cons.mp ht with rfl | hmem
    · exact TPurpose.noConfusion hp
    · exact b4 t hmem hp
  · intro t ht e hp
    rcases List.mem_cons.mp ht with rfl | hmem
    · exact TPurpose.noConfusion hp
    · exact b5 t hmem e hp

/-- The motion quick-re-automate rescheduling block of `_on_motion`
(cancel, then schedule a fresh timer) preserves the invariant. -/
theorem TInv_motionResched (s0 : St) (hi : TInv s0) :
    TInv { (runIn TPurpose.motionReauto
        (cancelTimerSafe s0.motionReautoTimer s0)).2 with
      motionReautoTimer := some (runIn TPurpose.motionReauto
        (cancelTimerSafe s0.motionReautoTimer s0)).1,
      log := (runIn TPurpose.motionReauto
        (cancelTimerSafe s0.motionReautoTimer s0)).2.log ++
        ["motion_quick_reauto_scheduled"] } := by
  have hno := no_motionReauto_after_cancel s0 hi
  obtain ⟨b1, b2, b3, b4, b5⟩ := TInv_cancelTimerSafe s0.motionReautoTimer s0 hi
  unfold runIn
  dsimp only
  refine ⟨?_, ?_, ?_, ?_, ?_⟩
  · intro t ht
    rcases List.mem_cons.mp ht with rfl | hmem
    · exact Nat.lt_succ_self _
    · exact Nat.lt_succ_of_lt (b1 t hmem)
  · rw [List.map_cons, List.nodup_cons]
    exact ⟨fresh_not_mem _ b1, b2⟩
  · intro t ht hp
    rcases List.mem_cons.mp ht with rfl | hmem
    · exact TPurpose.noConfusion hp
    · exact b3 t hmem hp
  · intro t ht hp
    rcases List.mem_cons.mp ht with rfl | hmem
    · rfl
    · exact absurd hp (hno t hmem)
  · intro t ht e hp
    rcases List.mem_cons.mp ht with rfl | hmem
    · exact TPurpose.noConfusion hp
    · exact b5 t hmem e hp

/-- Scheduling the manual-off re-automation timer (fresh handle, no
field, no cancellation) preserves the invariant. -/
theorem TInv_runIn_manualOff (s : St) (hi : TInv s) :
    TInv (runIn TPurpose.manualOffReauto s).2 := by
  obtain ⟨b1, b2, b3, b4, b5⟩ := hi
  unfold runIn
  dsimp only
  refine ⟨?_, ?_, ?_, ?_, ?_⟩
  · intro t ht
    rcases List.mem_cons.mp ht with rfl | hmem
    · exact Nat.lt_succ_self _
    · exact Nat.lt_succ_of_lt (b1 t hmem)
  · rw [List.map_cons, List.nodup_cons]
    exact ⟨fresh_not_mem _ b1, b2⟩
  · intro t ht hp
    rcases List.mem_cons.mp ht with rfl | hmem
    · exact TPurpose.noConfusion hp
    · exact b3 t hmem hp
  · intro t ht hp
    rcases List.mem_cons.mp ht with rfl | hmem
    · exact TPurpose.noConfusion hp
    · exact b4 t hmem hp
  · intro t ht e hp
    rcases List.mem_cons.mp ht with rfl | hmem
    · exact TPurpose.noConfusion hp
    · exact b5 t hmem e hp

/-- Cancelling preserves duplicate-freeness of the pending handles. -/
theorem cancelTimerSafe_nodup (h : Option Nat) (s : St)
    (hnd : (s.pending.map (fun t => t.tid)).Nodup) :
    ((cancelTimerSafe h s).pending.map (fun t => t.tid)).Nodup := by
  cases h with
  | none => exact hnd
  | some h0 => exact ((List.filter_sublist s.pending).map _).nodup hnd

/-- Rebuilding the invariant for a state whose pending timers are a
subset of a base state's, with unchanged handle fields, given the
per-light clause directly. -/
theorem TInv_build (s2 base : St)
    (hpend : ∀ t ∈ s2.pending, t ∈ base.pending)
    (hnext : s2.nextId = base.nextId)
    (hoff : s2.offTimer = base.offTimer)
    (hmot : s2.motionReautoTimer = base.motionReautoTimer)
    (hnd : (s2.pending.map (fun t => t.tid)).Nodup)
    (hal : ∀ t ∈ s2.pending, ∀ e', t.purpose = TPurpose.alHold e' →
      dictGet s2.alManualTimers e' = some t.tid)
    (hb : TInv base) : TInv s2 := by
  refine ⟨?_, hnd, ?_, ?_, hal⟩
  · intro t ht
    rw [hnext]
    exact hb.1 t (hpend t ht)
  · intro t ht hp
    rw [hoff]
    exact hb.2.2.1 t (hpend t ht) hp
  · intro t ht hp
    rw [hmot]
    exact hb.2.2.2.1 t (hpend t ht) hp

/-- Scheduling a fresh per-light hold timer and recording its handle
preserves the invariant, provided no hold timer for that light is
pending. -/
theorem TInv_schedule_alHold (s2 : St) (e : String) (hi2 : TInv s2)
    (hno : ∀ t ∈ s2.pending, ¬ t.purpose = TPurpose.alHold e) :
    TInv { (runIn (TPurpose.alHold e) s2).2 with
      alManualTimers := dictSet
        (runIn (TPurpose.alHold e) s2).2.alManualTimers e
        (runIn (TPurpose.alHold e) s2).1 } := by
  obtain ⟨b1, b2, b3, b4, b5⟩ := hi2
  unfold runIn
  dsimp only
  refine ⟨?_, ?_, ?_, ?_, ?_⟩
  · intro t ht
    rcases List.mem_cons.mp ht with rfl | hmem
    · exact Nat.lt_succ_self _
    · exact Nat.lt_succ_of_lt (b1 t hmem)
  · rw [List.map_cons, List.nodup_cons]
    exact ⟨fresh_not_mem _ b1, b2⟩
  · intro t ht hp
    rcases List.mem_cons.mp ht with rfl | hmem
    · exact TPurpose.noConfusion hp
    · exact b3 t hmem hp
  · intro t ht hp
    rcases List.mem_cons.mp ht with rfl | hmem
    · exact TPurpose.noConfusion hp
    · exact b4 t hmem hp
  · intro t ht e' hp
    rcases List.mem_cons.mp ht with rfl | hmem
    · injection hp with he
      subst he
      rw [dictGet_set]
      simp
    · by_cases he : e' = e
      · subst he
        exact absurd hp (hno t hmem)
      · rw [dictGet_set]
        rw [if_neg he]
        exact b5 t hmem e' hp

/-- `_al_schedule_reset_for` (pop and cancel the stored hold handle,
then possibly schedule a fresh one) preserves the invariant. -/
theorem TInv_alScheduleResetFor (cfg : Config) (e : String) (s : St)
    (hi : TInv s) : TInv (alScheduleResetFor cfg e s) := by
  have hno := no_alHold_after_popCancel s e hi
  have hf := cancelTimerSafe_fields (dictGet s.alManualTimers e)
    { s with alManualTimers := dictPop s.alManualTimers e }
  have hi2 : TInv (cancelTimerSafe (dictGet s.alManualTimers e)
      { s with alManualTimers := dictPop s.alManualTimers e }) := by
    refine TInv_build _ s
      (fun t ht => cancelTimerSafe_pending_sub (dictGet s.alManualTimers e)
        { s with alManualTimers := dictPop s.alManualTimers e } t ht)
      hf.1 hf.2.1 hf.2.2.1 (cancelTimerSafe_nodup _ _ hi.2.1) ?_ hi
    intro t ht e' hp
    by_cases he : e' = e
    · subst he
      exact absurd hp (hno t ht)
    · rw [hf.2.2.2,
        show ({ s with alManualTimers := dictPop s.alManualTimers e }
          : St).alManualTimers = dictPop s.alManualTimers e from rfl,
        dictGet_pop s.alManualTimers e e' he]
      exact hi.2.2.2.2 t (cancelTimerSafe_pending_sub
        (dictGet s.alManualTimers e)
        { s with alManualTimers := dictPop s.alManualTimers e } t ht) e' hp
  unfold alScheduleResetFor
  dsimp only
  split
  · exact hi2
  · exact TInv_schedule_alHold _ e hi2 hno

/-- Clearing the auto-off handle is sound once no auto-off timer is
pending. -/
theorem TInv_clear_offTimer (s : St) (hi : TInv s)
    (hno : ∀ t ∈ s.pending, ¬ t.purpose = TPurpose.autoOff) :
    TInv { s with offTimer := none } :=
  ⟨hi.1, hi.2.1, fun t ht hp => absurd hp (hno t ht),
    hi.2.2.2.1, hi.2.2.2.2⟩

/-- Clearing the quick-re-automate handle (and entering auto) is sound
once no quick-re-automate timer is pending. -/
theorem TInv_clear_motionTimer (s : St) (hi : TInv s)
    (hno : ∀ t ∈ s.pending, ¬ t.purpose = TPurpose.motionReauto) :
    TInv { s with motionReautoTimer := none, mode := "auto" } :=
  ⟨hi.1, hi.2.1, hi.2.2.1, fun t ht hp => absurd hp (hno t ht),
    hi.2.2.2.2⟩

/-- Popping a per-light hold handle is sound once no hold timer for
that light is pending. -/
theorem TInv_pop_alTimer (s : St) (e : String) (hi : TInv s)
    (hno : ∀ t ∈ s.pending, ¬ t.purpose = TPurpose.alHold e) :
    TInv { s with alManualTimers := dictPop s.alManualTimers e } := by
  refine ⟨hi.1, hi.2.1, hi.2.2.1, hi.2.2.2.1, ?_⟩
  intro t ht e' hp
  by_cases he : e' = e
  · subst he
    exact absurd hp (hno t ht)
  · rw [show ({ s with alManualTimers := dictPop s.alManualTimers e }
        : St).alManualTimers = dictPop s.alManualTimers e from rfl,
      dictGet_pop _ _ _ he]
    exact hi.2.2.2.2 t ht e' hp

/-- `_auto_off_elapsed` preserves the invariant once no auto-off timer
is pending. -/
theorem TInv_autoOffElapsed (cfg : Config) (env : Env) (s : St)
    (hi : TInv s)
    (hno : ∀ t ∈ s.pending, ¬ t.purpose = TPurpose.autoOff) :
    TInv (autoOffElapsed cfg env s) := by
  unfold autoOffElapsed
  dsimp only
  split_ifs <;>
    exact TInv_of_eq rfl rfl rfl rfl rfl (TInv_clear_offTimer s hi hno)

/-- `_reautomate_from_motion` preserves the invariant once no
quick-re-automate timer is pending. -/
theorem TInv_reautomateFromMotion (cfg : Config) (env : Env) (s : St)
    (hi : TInv s)
    (hno : ∀ t ∈ s.pending, ¬ t.purpose = TPurpose.motionReauto) :
    TInv (reautomateFromMotion cfg env s) := by
  unfold reautomateFromMotion
  dsimp only
  split_ifs <;>
    exact TInv_of_eq rfl rfl rfl rfl rfl (TInv_clear_motionTimer s hi hno)

/-- `_reautomate_from_manual_off` does not touch the timer fields. -/
theorem TInv_reautomateFromManualOff (cfg : Config) (env : Env) (s : St)
    (hi : TInv s) : TInv (reautomateFromManualOff cfg env s) := by
  unfold reautomateFromManualOff
  dsimp only
  split_ifs <;> exact TInv_of_eq rfl rfl rfl rfl rfl hi

/-- `_al_reset_timer_cb` preserves the invariant once no hold timer
for the light is pending. -/
theorem TInv_alResetTimerCb (cfg : Config) (e : String) (s : St)
    (hi : TInv s)
    (hno : ∀ t ∈ s.pending, ¬ t.purpose = TPurpose.alHold e) :
    TInv (alResetTimerCb cfg e s) := by
  unfold alResetTimerCb
  exact TInv_alReset cfg (some [e]) _
    (TInv_of_eq rfl rfl rfl rfl rfl (TInv_pop_alTimer s e hi hno))

/-- After removing a fired timer, no other timer of its (handle-backed)
purpose remains pending. -/
theorem no_same_purpose_after_fire (s : St) (hi : TInv s)
    (t : PendingTimer) (hmem : t ∈ s.pending) :
    (t.purpose = TPurpose.autoOff →
      ∀ u ∈ (cancelTimerSafe (some t.tid) s).pending,
        ¬ u.purpose = TPurpose.autoOff) ∧
    (t.purpose = TPurpose.motionReauto →
      ∀ u ∈ (cancelTimerSafe (some t.tid) s).pending,
        ¬ u.purpose = TPurpose.motionReauto) ∧
    (∀ e, t.purpose = TPurpose.alHold e →
      ∀ u ∈ (cancelTimerSafe (some t.tid) s).pending,
        ¬ u.purpose = TPurpose.alHold e) := by
  refine ⟨?_, ?_, ?_⟩
  · intro hp u hu hup
    have h1 := hi.2.2.1 u (List.mem_of_mem_filter hu) hup
    have h2 := hi.2.2.1 t hmem hp
    rw [h2] at h1
    have hut : u.tid = t.tid := by
      injection h1 with hh
      exact hh.symm
    have hfil := List.of_mem_filter hu
    simp [hut] at hfil
  · intro hp u hu hup
    have h1 := hi.2.2.2.1 u (List.mem_of_mem_filter hu) hup
    have h2 := hi.2.2.2.1 t hmem hp
    rw [h2] at h1
    have hut : u.tid = t.tid := by
      injection h1 with hh
      exact hh.symm
    have hfil := List.of_mem_filter hu
    simp [hut] at hfil
  · intro e hp u hu hup
    have h1 := hi.2.2.2.2 u (List.mem_of_mem_filter hu) e hup
    have h2 := hi.2.2.2.2 t hmem e hp
    rw [h2] at h1
    have hut : u.tid = t.tid := by
      injection h1 with hh
      exact hh.symm
    have hfil := List.of_mem_filter hu
    simp [hut] at hfil

/-- Timer expiry (callback dispatch) preserves the invariant. -/
theorem TInv_fireTimer (cfg : Config) (env : Env) (tid : Nat) (s : St)
    (hi : TInv s) : TInv (fireTimer cfg env tid s) := by
  unfold fireTimer
  cases hf : s.pending.find? (fun t => t.tid = tid)
  · exact hi
  · next t =>
    have hmem : t ∈ s.pending := List.mem_of_find?_eq_some hf
    have htid : t.tid = tid := by
      have h1 := List.find?_some hf
      simpa using h1
    subst htid
    have hi1 : TInv (cancelTimerSafe (some t.tid) s) :=
      TInv_cancelTimerSafe (some t.tid) s hi
    have hno := no_same_purpose_after_fire s hi t hmem
    dsimp only
    cases hp : t.purpose with
    | autoOff => exact TInv_autoOffElapsed cfg env _ hi1 (hno.1 hp)
    | motionReauto => exact TInv_reautomateFromMotion cfg env _ hi1 (hno.2.1 hp)
    | manualOffReauto => exact TInv_reautomateFromManualOff cfg env _ hi1
    | alHold e => exact TInv_alResetTimerCb cfg e _ hi1 (hno.2.2 e hp)

/-- `_on_button_press` does not touch the timer fields. -/
theorem TInv_onButtonPress (cfg : Config) (env : Env) (data : BtnData)
    (s : St) (hi : TInv s) : TInv (onButtonPress cfg env data s) := by
  unfold onButtonPress
  split
  · exact hi
  · cases hD : data.entityId
    · exact hi
    · dsimp only
      split_ifs <;> first
        | exact hi
        | exact TInv_turnOn _ _ _ _ (TInv_of_eq rfl rfl rfl rfl rfl hi)
        | exact TInv_turnOff _ _ _ _ (TInv_of_eq rfl rfl rfl rfl rfl hi)

/-- `_on_lux_changed` does not touch the timer fields. -/
theorem TInv_onLuxChanged (cfg : Config) (env : Env) (entity : String)
    (old new : AVal) (s : St) (hi : TInv s) :
    TInv (onLuxChanged cfg env entity old new s) := by
  unfold onLuxChanged
  dsimp only
  split_ifs <;> first
    | exact TInv_of_eq rfl rfl rfl rfl rfl hi
    | exact TInv_turnOn _ _ _ _ (TInv_of_eq rfl rfl rfl rfl rfl hi)
    | exact TInv_applyMediaDimming _ _ _
        (TInv_of_eq rfl rfl rfl rfl rfl hi)

/-- `_on_media_state` does not touch the timer fields. -/
theorem TInv_onMediaState (cfg : Config) (env : Env) (entity : String)
    (old new : Option String) (s : St) (hi : TInv s) :
    TInv (onMediaState cfg env entity old new s) := by
  unfold onMediaState
  dsimp only
  split_ifs <;> first
    | exact TInv_of_eq rfl rfl rfl rfl rfl hi
    | exact TInv_applyMediaDimming _ _ _
        (TInv_of_eq rfl rfl rfl rfl rfl hi)
    | exact TInv_restoreFromMedia _ _
        (TInv_of_eq rfl rfl rfl rfl rfl hi)

/-- `_on_light_attr` preserves the invariant. -/
theorem TInv_onLightAttr (cfg : Config) (env : Env) (entity attr : String)
    (old new : AVal) (s : St) (hi : TInv s) :
    TInv (onLightAttr cfg env entity attr old new s) := by
  unfold onLightAttr
  dsimp only
  split_ifs <;> first
    | exact hi
    | exact TInv_alScheduleResetFor _ _ _
        (TInv_alSetManualControl _ _ _
          (TInv_cancelTimerSafe _ _ (TInv_of_eq rfl rfl rfl rfl rfl hi)))
    | exact TInv_alScheduleResetFor _ _ _
        (TInv_alSetManualControl _ _ _ hi)

/-- `_on_light_power` preserves the invariant. -/
theorem TInv_onLightPower (cfg : Config) (env : Env) (entity : String)
    (old new : Option String) (s : St) (hi : TInv s) :
    TInv (onLightPower cfg env entity old new s) := by
  unfold onLightPower
  split
  · exact hi
  · cases hig : ignoreIfExpectedEcho env s entity old new with
    | mk b s1 =>
      have his1 : TInv s1 := by
        have h := TInv_ignoreEcho env s entity old new hi
        rw [hig] at h
        exact h
      cases b
      · dsimp only
        split_ifs <;> first
          | exact his1
          | exact TInv_alScheduleResetFor _ _ _
              (TInv_alSetManualControl _ _ _
                (TInv_cancelTimerSafe _ _
                  (TInv_of_eq rfl rfl rfl rfl rfl his1)))
          | exact TInv_runIn_manualOff _
              (TInv_cancelTimerSafe _ _
                (TInv_of_eq rfl rfl rfl rfl rfl his1))
      · exact his1

/-- `_on_motion` preserves the invariant. -/
theorem TInv_onMotion (cfg : Config) (env : Env) (entity : String)
    (old new : Option String) (s : St) (hi : TInv s) :
    TInv (onMotion cfg env entity old new s) := by
  simp only [onMotion]
  by_cases hm : s.mode = "manual_on" ∧ isOccupiedVal new = true
  · rw [if_pos hm]
    split_ifs <;> first
      | exact TInv_motionResched { s with presence := isOccupiedVal new }
            (TInv_of_eq rfl rfl rfl rfl rfl hi)
      | exact TInv_of_eq rfl rfl rfl rfl rfl
          (TInv_motionResched { s with presence := isOccupiedVal new }
            (TInv_of_eq rfl rfl rfl rfl rfl hi))
      | exact TInv_of_eq rfl rfl rfl rfl rfl
          (TInv_cancelTimerSafe _ _
            (TInv_motionResched { s with presence := isOccupiedVal new }
            (TInv_of_eq rfl rfl rfl rfl rfl hi)))
      | exact TInv_applyMediaDimming _ _ _
          (TInv_cancelTimerSafe _ _
            (TInv_motionResched { s with presence := isOccupiedVal new }
            (TInv_of_eq rfl rfl rfl rfl rfl hi)))
      | exact TInv_scheduleOff _ _
          (TInv_motionResched { s with presence := isOccupiedVal new }
            (TInv_of_eq rfl rfl rfl rfl rfl hi))
  · rw [if_neg hm]
    have hi0 : TInv ({ s with presence := isOccupiedVal new } : St) :=
      TInv_of_eq rfl rfl rfl rfl rfl hi
    split_ifs <;> first
      | exact hi0
      | exact TInv_of_eq rfl rfl rfl rfl rfl hi0
      | exact TInv_of_eq rfl rfl rfl rfl rfl
          (TInv_cancelTimerSafe _ _ hi0)
      | exact TInv_turnOn _ _ _ _ (TInv_cancelTimerSafe _ _ hi0)
      | exact TInv_applyMediaDimming _ _ _
          (TInv_cancelTimerSafe _ _ hi0)
      | exact TInv_scheduleOff _ _ hi0

/-- Every event dispatch preserves the invariant. -/
theorem TInv_step (cfg : Config) (s : St) (ev : Ev) (hi : TInv s) :
    TInv (step cfg s ev) := by
  cases ev with
  | motion e o n env => exact TInv_onMotion cfg env e o n s hi
  | lightPower e o n env => exact TInv_onLightPower cfg env e o n s hi
  | lightAttr e a o n env => exact TInv_onLightAttr cfg env e a o n s hi
  | luxChanged e o n env => exact TInv_onLuxChanged cfg env e o n s hi
  | mediaState e o n env => exact TInv_onMediaState cfg env e o n s hi
  | buttonPress d env => exact TInv_onButtonPress cfg env d s hi
  | timerFire tid env => exact TInv_fireTimer cfg env tid s hi

/-- The invariant holds in every reachable state. -/
theorem TInv_run (cfg : Config) (evs : List Ev) : TInv (run cfg evs) := by
  have hinit : TInv (initSt 0) := by
    refine ⟨?_, List.nodup_nil, ?_, ?_, ?_⟩ <;> intro t ht <;> cases ht
  unfold run
  have hfold : ∀ (l : List Ev) (s : St), TInv s →
      TInv (List.foldl (step cfg) s l) := by
    intro l
    induction l with
    | nil => exact fun s hs => hs
    | cons e tl ih => exact fun s hs => ih _ (TInv_step cfg s e hs)
  exact hfold evs _ hinit

/-- C4 (amended): in every reachable state at most one auto-off timer,
at most one motion quick-re-automate timer and at most one per-light
adaptive-lighting manual-hold timer are pending — each of those
schedule requests cancels the prior pending instance first.  The
manual-off re-automation timer does NOT obey the claim: it is
scheduled without cancelling (or storing) a prior instance, so several
can be pending at once. -/
theorem c4_at_most_one_timer_per_handled_purpose :
    ∀ (cfg : Config) (evs : List Ev),
      countPurpose (run cfg evs) TPurpose.autoOff ≤ 1 ∧
      countPurpose (run cfg evs) TPurpose.motionReauto ≤ 1 ∧
      (∀ e, countPurpose (run cfg evs) (TPurpose.alHold e) ≤ 1) := by
  intro cfg evs
  have hi := TInv_run cfg evs
  refine ⟨?_, ?_, ?_⟩
  · apply count_le_one_of_unique_tid _ _ ((run cfg evs).offTimer.getD 0)
      hi.2.1
    intro t ht hp
    have hcl := hi.2.2.1 t ht hp
    rw [hcl]
    rfl
  · apply count_le_one_of_unique_tid _ _
      ((run cfg evs).motionReautoTimer.getD 0) hi.2.1
    intro t ht hp
    have hcl := hi.2.2.2.1 t ht hp
    rw [hcl]
    rfl
  · intro e
    apply count_le_one_of_unique_tid _ _
      ((dictGet (run cfg evs).alManualTimers e).getD 0) hi.2.1
    intro t ht hp
    have hcl := hi.2.2.2.2 t ht e hp
    rw [hcl]
    rfl

end Lights
